import Mathlib

/-!
Verification of the formula engine of the xlrd2 repository
(`xlrd2/formula.py`): a shallow embedding, in Lean 4, of the module's
data model (Operand, Ref3D, the dispatch tables and the function
catalog), its address decoders, its cross-sheet resolution, the
name-formula evaluator and the formula decompiler, together with
theorems settling the specification's claims about them.

Conventions of the embedding:

* Python byte strings become `List Nat` (one entry per byte).
* Python exceptions become the error side of `Except PyErr`; each raise
  site maps to the constructor matching the exception class raised
  there.  `PyErr.fuelExhausted` is an embedding artifact: the `while`
  loops and the name-to-name recursion are driven by an explicit fuel
  argument, so every definition is structurally recursive (the loops of
  the source advance `pos` by at least one byte per iteration, so a fuel
  of `fmlalen + 1` never runs out; name recursion is cut off by the
  panic-level check of the source before a depth of 12 is reached).
* Python floats are modelled by exact rationals in canonical form
  (`Flt`), built from structural recursion only, so that concrete runs
  of the machine can be evaluated by `decide`.  Rounding behaviour of
  IEEE doubles is not modelled; every numeric fact proved below involves
  small integers, on which the two semantics agree.
* The operand stack holds `StackElt`: either a real `Operand` object or
  a bare Python `int` (`StackElt.intObj`), because one branch of the
  source pushes the integer constant `oERR` itself onto the stack.
  Attribute access on such an element is an `AttributeError`, exactly as
  in Python.
* Mutation of `NameObject`s through aliasing (`nobj` is always the entry
  `bk.name_obj_list[namex]` at every call site) is modelled by explicit
  state passing: the evaluator receives the index and returns the
  updated `Book`.
-/

namespace Xlrd2

/-! ## Python-level primitives -/

/-- The exception classes raised (or potentially raised) by the embedded
code, plus two embedding artifacts (`unmodelledFloat` for float
operations outside exact rational arithmetic, `fuelExhausted` for the
structural-recursion fuel). -/
inductive PyErr where
  | formulaError (msg : String)
  | xlrdError (msg : String)
  | assertionError
  | typeError
  | valueError
  | indexError
  | keyError
  | attributeError
  | structError
  | zeroDivisionError
  | unmodelledFloat
  | fuelExhausted
deriving DecidableEq

instance {ε α : Type} [DecidableEq ε] [DecidableEq α] : DecidableEq (Except ε α)
  | .ok a, .ok b =>
    if h : a = b then .isTrue (h ▸ rfl) else .isFalse (fun hc => h (Except.ok.inj hc))
  | .ok _, .error _ => .isFalse (fun hc => Except.noConfusion hc)
  | .error _, .ok _ => .isFalse (fun hc => Except.noConfusion hc)
  | .error e, .error f =>
    if h : e = f then .isTrue (h ▸ rfl) else .isFalse (fun hc => h (Except.error.inj hc))

/-- Python sequence indexing `l[i]`: negative indices count from the
end; out-of-range raises `IndexError`. -/
def pyIdx {α : Type} (l : List α) (i : Int) : Except PyErr α :=
  let j : Int := if i < 0 then (l.length : Int) + i else i
  if j < 0 then .error .indexError
  else match l.get? j.toNat with
    | some a => .ok a
    | none => .error .indexError

/-- Python `l[i] = a` under the alias discipline described above (the
index is in range at every use site; out-of-range is surfaced as
`IndexError` for completeness). -/
def pySet {α : Type} (l : List α) (i : Int) (a : α) : Except PyErr (List α) :=
  let j : Int := if i < 0 then (l.length : Int) + i else i
  if j < 0 then .error .indexError
  else if j.toNat < l.length then .ok (l.set j.toNat a) else .error .indexError

/-- Python `stack.pop()`: removes and returns the last element. -/
def pyPop {α : Type} (l : List α) : Except PyErr (α × List α) :=
  match l.getLast? with
  | some a => .ok (a, l.dropLast)
  | none => .error .indexError

/-- Python `stack[-n:]` for `n = nargs ≥ 0`.  Note the quirk the source
relies on us reproducing: `stack[-0:]` is the whole list. -/
def pyTailSlice {α : Type} (l : List α) (n : Nat) : List α :=
  if n = 0 then l else l.drop (l.length - n)

/-- Python `del stack[-n:]` (same `-0` quirk: deletes everything). -/
def pyDelTail {α : Type} (l : List α) (n : Nat) : List α :=
  if n = 0 then [] else l.take (l.length - n)

/-- `BYTES_ORD(data[pos])`: direct byte indexing, `IndexError` when out
of range. -/
def pyReadByte (data : List Nat) (i : Nat) : Except PyErr Nat :=
  match data.get? i with
  | some b => .ok b
  | none => .error .indexError

/-- One byte consumed through `struct.unpack` (which raises
`struct.error` on a short buffer, unlike direct indexing). -/
def readU8 (data : List Nat) (i : Nat) : Except PyErr Nat :=
  match data.get? i with
  | some b => .ok b
  | none => .error .structError

/-- `struct.unpack("<H", ...)`: unsigned 16-bit little-endian. -/
def readU16 (data : List Nat) (i : Nat) : Except PyErr Nat := do
  let a ← readU8 data i
  let b ← readU8 data (i + 1)
  return a + 256 * b

/-- `struct.unpack("<h", ...)`: signed 16-bit little-endian. -/
def readI16 (data : List Nat) (i : Nat) : Except PyErr Int := do
  let v ← readU16 data i
  return if v ≥ 32768 then (v : Int) - 65536 else (v : Int)

/-! ## Exact rationals with structural recursion (the float model) -/

/-- Euclid with explicit fuel, so the kernel can evaluate it. -/
def gcdAux : Nat → Nat → Nat → Nat
  | 0, _, n => n
  | f + 1, m, n => if m = 0 then n else gcdAux f (n % m) m

/-- `gcdS m n` is `Nat.gcd m n`, kernel-reducible. -/
def gcdS (m n : Nat) : Nat := gcdAux (m + 1) m n

/-- A Python float, modelled as an exact rational in canonical form
(coprime numerator/denominator, positive denominator). -/
structure Flt where
  num : Int
  den : Nat
deriving DecidableEq

/-- Canonicalising constructor. -/
def Flt.mk' (n : Int) (d : Nat) : Flt :=
  if d = 0 then ⟨0, 1⟩
  else
    let g := gcdS n.natAbs d
    let m : Int := Int.ofNat (n.natAbs / g)
    ⟨if n < 0 then -m else m, d / g⟩

def Flt.ofInt (n : Int) : Flt := ⟨n, 1⟩

def Flt.ofNat (n : Nat) : Flt := ⟨Int.ofNat n, 1⟩

/-- Constructor from an integer pair (denominator of either sign). -/
def Flt.mkInt (n d : Int) : Flt :=
  if d < 0 then Flt.mk' (-n) (-d).toNat else Flt.mk' n d.toNat

def Flt.add (a b : Flt) : Flt :=
  Flt.mk' (a.num * (b.den : Int) + b.num * (a.den : Int)) (a.den * b.den)

def Flt.sub (a b : Flt) : Flt :=
  Flt.mk' (a.num * (b.den : Int) - b.num * (a.den : Int)) (a.den * b.den)

def Flt.mul (a b : Flt) : Flt :=
  Flt.mk' (a.num * b.num) (a.den * b.den)

def Flt.divBy (a b : Flt) : Flt :=
  Flt.mkInt (a.num * (b.den : Int)) ((a.den : Int) * b.num)

def Flt.neg (a : Flt) : Flt := ⟨-a.num, a.den⟩

def Flt.isZero (a : Flt) : Bool := a.num = 0

def Flt.lt (a b : Flt) : Bool := a.num * (b.den : Int) < b.num * (a.den : Int)

def Flt.le (a b : Flt) : Bool := a.num * (b.den : Int) ≤ b.num * (a.den : Int)

/-- Python `int(f)`: truncation toward zero. -/
def Flt.trunc (a : Flt) : Int :=
  if a.num < 0 then -(Int.ofNat (a.num.natAbs / a.den)) else Int.ofNat (a.num.natAbs / a.den)

/-- Python `x ** y` on floats.  Exact for integral exponents; a
non-integral exponent leaves exact rational arithmetic and is reported
as `unmodelledFloat` (no claim exercises it). -/
def Flt.pow (a b : Flt) : Except PyErr Flt :=
  if b.den = 1 then
    if 0 ≤ b.num then
      .ok (Flt.mk' (a.num ^ b.num.toNat) (a.den ^ b.num.toNat))
    else if a.num = 0 then .error .zeroDivisionError
    else .ok (Flt.mkInt ((a.den : Int) ^ (-b.num).toNat) (a.num ^ (-b.num).toNat))
  else .error .unmodelledFloat

/-- Least `k ≤ fuel` with `n * 10^k` divisible by `d` (for decimal
rendering), if any. -/
def decExpAux : Nat → Nat → Nat → Nat → Option Nat
  | 0, n, d, acc => if n % d = 0 then some acc else none
  | f + 1, n, d, acc => if n % d = 0 then some acc else decExpAux f (n * 10) d (acc + 1)

/-- Python `str(float)`.  Exact finite-decimal rendering for our
idealised rationals; the shortest-round-trip algorithm of CPython is not
reproduced (a denominator that is not a factor of a power of ten falls
back to a fraction spelling, which no modelled float ever has). -/
def Flt.decStr (a : Flt) : String :=
  let sign := if a.num < 0 then "-" else ""
  let n := a.num.natAbs
  match decExpAux 64 n a.den 0 with
  | none => toString a.num ++ "/" ++ toString a.den
  | some k =>
    let total := n * 10 ^ k / a.den
    if k = 0 then sign ++ toString total ++ ".0"
    else
      let ip := total / 10 ^ k
      let fp := total % 10 ^ k
      let fpS := toString fp
      let fpS := String.mk (List.replicate (k - fpS.length) (Char.ofNat 48)) ++ fpS
      sign ++ toString ip ++ "." ++ fpS

/-- `num2strg`: Excel's default number-to-string rule, `str(num)` with a
trailing `.0` stripped. -/
def num2strg (a : Flt) : String :=
  let s := Flt.decStr a
  if s.endsWith ".0" then s.dropRight 2 else s

/-- Digit run to a natural number. -/
def digitsToNat (l : List Char) : Nat :=
  l.foldl (fun acc c => acc * 10 + (c.toNat - 48)) 0

/-- Python `float(str)`: optional surrounding whitespace, optional sign,
decimal digits with optional point and exponent.  (`inf`/`nan` and
digit-group underscores are not modelled; parsing them reports
`ValueError`, which only widens the error set of a path no claim
exercises.) -/
def pyFloatOfString (s : String) : Except PyErr Flt :=
  let cs := (s.data.dropWhile Char.isWhitespace).reverse
  let cs := (cs.dropWhile Char.isWhitespace).reverse
  let (sgn, cs) :=
    match cs with
    | '-' :: rest => ((-1 : Int), rest)
    | '+' :: rest => ((1 : Int), rest)
    | _ => ((1 : Int), cs)
  let ip := cs.takeWhile Char.isDigit
  let cs := cs.drop ip.length
  let (fp, cs) :=
    match cs with
    | '.' :: rest => (rest.takeWhile Char.isDigit, rest.drop ((rest.takeWhile Char.isDigit).length))
    | _ => ([], cs)
  if ip.length = 0 ∧ fp.length = 0 then .error .valueError
  else
    let mantissa : Int := sgn * Int.ofNat (digitsToNat (ip ++ fp))
    let scale := fp.length
    match cs with
    | [] => .ok (Flt.mk' mantissa (10 ^ scale))
    | e :: rest =>
      if e = 'e' ∨ e = 'E' then
        let (esgn, rest) :=
          match rest with
          | '-' :: r => (false, r)
          | '+' :: r => (true, r)
          | _ => (true, rest)
        let ed := rest.takeWhile Char.isDigit
        if ed.length = 0 ∨ rest.length ≠ ed.length then .error .valueError
        else
          let ev := digitsToNat ed
          if esgn then .ok (Flt.mk' (mantissa * Int.ofNat (10 ^ ev)) (10 ^ scale))
          else .ok (Flt.mk' mantissa (10 ^ scale * 10 ^ ev))
      else .error .valueError

/-- `struct.unpack("<d", ...)`: an IEEE-754 double read exactly as a
rational.  The non-finite encodings (exponent field all ones) leave the
rational model and are reported as `unmodelledFloat`. -/
def readF64 (data : List Nat) (i : Nat) : Except PyErr Flt := do
  let b0 ← readU8 data i
  let b1 ← readU8 data (i + 1)
  let b2 ← readU8 data (i + 2)
  let b3 ← readU8 data (i + 3)
  let b4 ← readU8 data (i + 4)
  let b5 ← readU8 data (i + 5)
  let b6 ← readU8 data (i + 6)
  let b7 ← readU8 data (i + 7)
  let bits := b0 + 256 * (b1 + 256 * (b2 + 256 * (b3 + 256 * (b4 + 256 * (b5 + 256 * (b6 + 256 * b7))))))
  let sign := bits / 2 ^ 63
  let expF := bits / 2 ^ 52 % 2 ^ 11
  let frac := bits % 2 ^ 52
  if expF = 2047 then .error .unmodelledFloat
  else
    let m : Nat := if expF = 0 then frac else 2 ^ 52 + frac
    let e : Nat := if expF = 0 then 1 else expF
    let q :=
      if e ≥ 1075 then Flt.mk' (Int.ofNat (m * 2 ^ (e - 1075))) 1
      else Flt.mk' (Int.ofNat m) (2 ^ (1075 - e))
    return if sign = 1 then Flt.neg q else q

/-! ## Operand kinds and the value model -/

def oBOOL : Int := 3
def oERR : Int := 4
def oMSNG : Int := 5
def oNUM : Int := 2
def oREF : Int := -1
def oREL : Int := -2
def oSTRG : Int := 1
def oUNK : Int := 0

def listsep : String := ","

/-- An absolute or relative 3-D box reference.  `coords` holds the six
half-open bounds `(shtxlo, shtxhi, rowxlo, rowxhi, colxlo, colxhi)`,
`relflags` the six relative markers (1 relative, 0 absolute). -/
structure Ref3D where
  coords : List Int
  relflags : List Int
deriving DecidableEq

/-- The `Ref3D(atuple)` constructor: first six entries are the coords,
the rest (if any) the relflags, defaulting to all-absolute. -/
def Ref3D.ofTuple (l : List Int) : Ref3D :=
  { coords := l.take 6
    relflags := if l.drop 6 = [] then [0, 0, 0, 0, 0, 0] else l.drop 6 }

/-- The values an `Operand` can carry: a number (int or float collapse
to the exact-rational model), a string, or a list of `Ref3D` boxes. -/
inductive XLValue where
  | num (q : Flt)
  | str (s : String)
  | refs (rs : List Ref3D)
deriving DecidableEq

/-- The stack-machine value: kind, optional constant value, precedence
rank and reconstructed text, with the Python defaults. -/
structure Operand where
  kind : Int := oUNK
  value : Option XLValue := none
  rank : Nat := 0
  text : String := "?"
deriving DecidableEq

def unk_opnd : Operand := { kind := oUNK }

def error_opnd : Operand := { kind := oERR }

/-- A stack element: a real `Operand`, or a bare Python `int` (the
`res = oERR` slip of the `tRange` error branches pushes the integer
kind constant itself, not an operand). -/
inductive StackElt where
  | op (o : Operand)
  | intObj (n : Int)
deriving DecidableEq

/-- Attribute read `x.text` (an `int` has no such attribute). -/
def StackElt.getText : StackElt → Except PyErr String
  | .op o => .ok o.text
  | .intObj _ => .error .attributeError

/-- Coerce a stack element to an `Operand` at the first attribute
access, as Python would (`AttributeError` on a bare int). -/
def StackElt.getOp : StackElt → Except PyErr Operand
  | .op o => .ok o
  | .intObj _ => .error .attributeError

/-- Python truthiness of a modelled value. -/
def xlTruthy : XLValue → Bool
  | .num q => ¬ q.num = 0
  | .str s => ¬ s = ""
  | .refs rs => ¬ rs = []

/-! ## Version dispatch tables (`sztab0`..`sztab4`, `szdict`, `onames`) -/

def sztab0 : List Int := [-2, 4, 4, 1, 1, 1, 1, 1, 1, 1, 1, 1, 1, 1, 1, 1, 1, 1, 1, 1, 1, 1, 1, -1, -2, -1, 8, 4, 2, 2, 3, 9, 8, 2, 3, 8, 4, 7, 5, 5, 5, 2, 4, 7, 4, 7, 2, 2, -2, -2, -2, -2, -2, -2, -2, -2, 3, -2, -2, -2, -2, -2, -2, -2]
def sztab1 : List Int := [-2, 5, 5, 1, 1, 1, 1, 1, 1, 1, 1, 1, 1, 1, 1, 1, 1, 1, 1, 1, 1, 1, 1, -1, -2, -1, 11, 5, 2, 2, 3, 9, 9, 2, 3, 11, 4, 7, 7, 7, 7, 3, 4, 7, 4, 7, 3, 3, -2, -2, -2, -2, -2, -2, -2, -2, 3, -2, -2, -2, -2, -2, -2, -2]
def sztab2 : List Int := [-2, 5, 5, 1, 1, 1, 1, 1, 1, 1, 1, 1, 1, 1, 1, 1, 1, 1, 1, 1, 1, 1, 1, -1, -2, -1, 11, 5, 2, 2, 3, 9, 9, 3, 4, 11, 4, 7, 7, 7, 7, 3, 4, 7, 4, 7, 3, 3, -2, -2, -2, -2, -2, -2, -2, -2, -2, -2, -2, -2, -2, -2, -2, -2]
def sztab3 : List Int := [-2, 5, 5, 1, 1, 1, 1, 1, 1, 1, 1, 1, 1, 1, 1, 1, 1, 1, 1, 1, 1, 1, 1, -1, -2, -1, -2, -2, 2, 2, 3, 9, 9, 3, 4, 15, 4, 7, 7, 7, 7, 3, 4, 7, 4, 7, 3, 3, -2, -2, -2, -2, -2, -2, -2, -2, -2, 25, 18, 21, 18, 21, -2, -2]
def sztab4 : List Int := [-2, 5, 5, 1, 1, 1, 1, 1, 1, 1, 1, 1, 1, 1, 1, 1, 1, 1, 1, 1, 1, 1, 1, -1, -1, -1, -2, -2, 2, 2, 3, 9, 9, 3, 4, 5, 5, 9, 7, 7, 7, 3, 5, 9, 5, 9, 3, 3, -2, -2, -2, -2, -2, -2, -2, -2, -2, 7, 7, 11, 7, 11, -2, -2]

/-- `szdict[bv]`: which size table a format generation uses (`KeyError`
for an unrecognised generation, as for a Python dict). -/
def szdict (bv : Nat) : Except PyErr (List Int) :=
  if bv = 20 ∨ bv = 21 then .ok sztab0
  else if bv = 30 then .ok sztab1
  else if bv = 40 ∨ bv = 45 then .ok sztab2
  else if bv = 50 ∨ bv = 70 then .ok sztab3
  else if bv = 80 then .ok sztab4
  else .error .keyError

/-- `sztab[opx]`: the index is `opcode` or `opcode + 32`, hence < 64 and
always in range of the 64-entry tables; the default is never read. -/
def szAt (tab : List Int) (i : Nat) : Int := tab.getD i (-2)

def onames : List String := ["Unk00", "Exp", "Tbl", "Add", "Sub", "Mul", "Div", "Power", "Concat", "LT", "LE", "EQ", "GE", "GT", "NE", "Isect", "List", "Range", "Uplus", "Uminus", "Percent", "Paren", "MissArg", "Str", "Extended", "Attr", "Sheet", "EndSheet", "Err", "Bool", "Int", "Num", "Array", "Func", "FuncVar", "Name", "Ref", "Area", "MemArea", "MemErr", "MemNoMem", "MemFunc", "RefErr", "AreaErr", "RefN", "AreaN", "MemAreaN", "MemNoMemN", "", "", "", "", "", "", "", "", "FuncCE", "NameX", "Ref3d", "Area3d", "RefErr3d", "AreaErr3d", "", ""]

def FMLA_TYPE_CELL : Nat := 1
def FMLA_TYPE_SHARED : Nat := 2
def FMLA_TYPE_ARRAY : Nat := 4
def FMLA_TYPE_COND_FMT : Nat := 8
def FMLA_TYPE_DATA_VAL : Nat := 16
def FMLA_TYPE_NAME : Nat := 32
def ALL_FMLA_TYPES : Nat := 63

/-- `FMLA_TYPEDESCR_MAP` as a partial map. -/
def fmlaTypeDescr (t : Nat) : Option String :=
  if t = 1 then some "CELL"
  else if t = 2 then some "SHARED"
  else if t = 4 then some "ARRAY"
  else if t = 8 then some "COND-FMT"
  else if t = 16 then some "DATA-VAL"
  else if t = 32 then some "NAME"
  else none

/-- `_TOKEN_NOT_ALLOWED.get(opx, 0)`. -/
def tokenNotAllowed (opx : Nat) : Nat :=
  if opx = 0x01 then ALL_FMLA_TYPES - FMLA_TYPE_CELL
  else if opx = 0x02 then ALL_FMLA_TYPES - FMLA_TYPE_CELL
  else if opx = 0x0F then FMLA_TYPE_SHARED + FMLA_TYPE_COND_FMT + FMLA_TYPE_DATA_VAL
  else if opx = 0x10 then FMLA_TYPE_SHARED + FMLA_TYPE_COND_FMT + FMLA_TYPE_DATA_VAL
  else if opx = 0x11 then FMLA_TYPE_SHARED + FMLA_TYPE_COND_FMT + FMLA_TYPE_DATA_VAL
  else if opx = 0x20 then FMLA_TYPE_SHARED + FMLA_TYPE_COND_FMT + FMLA_TYPE_DATA_VAL
  else if opx = 0x23 then FMLA_TYPE_SHARED
  else if opx = 0x39 then FMLA_TYPE_SHARED + FMLA_TYPE_COND_FMT + FMLA_TYPE_DATA_VAL
  else if opx = 0x3A then FMLA_TYPE_SHARED + FMLA_TYPE_COND_FMT + FMLA_TYPE_DATA_VAL
  else if opx = 0x3B then FMLA_TYPE_SHARED + FMLA_TYPE_COND_FMT + FMLA_TYPE_DATA_VAL
  else if opx = 0x2C then FMLA_TYPE_CELL + FMLA_TYPE_ARRAY
  else if opx = 0x2D then FMLA_TYPE_CELL + FMLA_TYPE_ARRAY
  else 0

/-- `tAttrNames.get` (used only inside diagnostic prints). -/
def tAttrNames (subop : Nat) : String :=
  if subop = 0x00 then "Skip??"
  else if subop = 0x01 then "Volatile"
  else if subop = 0x02 then "If"
  else if subop = 0x04 then "Choose"
  else if subop = 0x08 then "Skip"
  else if subop = 0x10 then "Sum"
  else if subop = 0x20 then "Assign"
  else if subop = 0x40 then "Space"
  else if subop = 0x41 then "SpaceVolatile"
  else "??Unknown??"

def error_opcodes : List Nat := [0x07, 0x08, 0x0A, 0x0B, 0x1C, 0x1D, 0x2F]

/-- Modelled from the spec: `error_text_from_code` lives in the
record-stream collaborator module (`biffh`), absent from `src/`; the
spec describes error-code literals rendering as quoted Excel error
texts, so the standard BIFF error-code table is used (`KeyError` on any
other code, as for a Python dict). -/
def error_text_from_code (code : Nat) : Except PyErr String :=
  if code = 0x00 then .ok "#NULL!"
  else if code = 0x07 then .ok "#DIV/0!"
  else if code = 0x0F then .ok "#VALUE!"
  else if code = 0x17 then .ok "#REF!"
  else if code = 0x1D then .ok "#NAME?"
  else if code = 0x24 then .ok "#NUM!"
  else if code = 0x2A then .ok "#N/A"
  else .error .keyError

/-- Modelled from the spec: `unpack_string_update_pos` (collaborator in
`biffh`, absent from `src/`) reads a 1-byte length followed by that many
8-bit characters, returning the string and the updated position. -/
def unpack_string_update_pos (data : List Nat) (pos : Nat) : Except PyErr (String × Nat) := do
  let nchars ← readU8 data pos
  let bytes := (data.drop (pos + 1)).take nchars
  return (String.mk (bytes.map Char.ofNat), pos + 1 + nchars)

/-- Modelled from the spec: `unpack_unicode_update_pos` (collaborator in
`biffh`, absent from `src/`) reads a 1-byte length, a 1-byte options
flag, then the characters: 16-bit little-endian units when bit 0 of the
options is set, single bytes otherwise (the rich-text and phonetic
options of the full BIFF8 format are not modelled; the spec only calls
for variable-length inline string literals). -/
def unpack_unicode_update_pos (data : List Nat) (pos : Nat) : Except PyErr (String × Nat) := do
  let nchars ← readU8 data pos
  let options ← readU8 data (pos + 1)
  if options % 2 = 1 then
    let units := ((data.drop (pos + 2)).take (2 * nchars)).toChunks 2
    let chars := units.map fun u => Char.ofNat ((u.getD 0 0) + 256 * (u.getD 1 0))
    return (String.mk chars, pos + 2 + 2 * nchars)
  else
    let bytes := (data.drop (pos + 2)).take nchars
    return (String.mk (bytes.map Char.ofNat), pos + 2 + nchars)

set_option maxHeartbeats 2000000 in
/-- The function catalog `func_defs` (id, (name, min args, max args)).
The remaining catalog columns of the source (flag byte, known-argument
count, return-type tag, argument-type tags) are documentation only: no
embedded code path reads them, so they are not transcribed. -/
def func_defs : List (Nat × String × Nat × Nat) := [
  (0, "COUNT", 0, 30),
  (1, "IF", 1, 3),
  (2, "ISNA", 1, 1),
  (3, "ISERROR", 1, 1),
  (4, "SUM", 0, 30),
  (5, "AVERAGE", 1, 30),
  (6, "MIN", 1, 30),
  (7, "MAX", 1, 30),
  (8, "ROW", 0, 1),
  (9, "COLUMN", 0, 1),
  (10, "NA", 0, 0),
  (11, "NPV", 2, 30),
  (12, "STDEV", 1, 30),
  (13, "DOLLAR", 1, 2),
  (14, "FIXED", 2, 3),
  (15, "SIN", 1, 1),
  (16, "COS", 1, 1),
  (17, "TAN", 1, 1),
  (18, "ATAN", 1, 1),
  (19, "PI", 0, 0),
  (20, "SQRT", 1, 1),
  (21, "EXP", 1, 1),
  (22, "LN", 1, 1),
  (23, "LOG10", 1, 1),
  (24, "ABS", 1, 1),
  (25, "INT", 1, 1),
  (26, "SIGN", 1, 1),
  (27, "ROUND", 2, 2),
  (28, "LOOKUP", 2, 3),
  (29, "INDEX", 2, 4),
  (30, "REPT", 2, 2),
  (31, "MID", 3, 3),
  (32, "LEN", 1, 1),
  (33, "VALUE", 1, 1),
  (34, "TRUE", 0, 0),
  (35, "FALSE", 0, 0),
  (36, "AND", 1, 30),
  (37, "OR", 1, 30),
  (38, "NOT", 1, 1),
  (39, "MOD", 2, 2),
  (40, "DCOUNT", 3, 3),
  (41, "DSUM", 3, 3),
  (42, "DAVERAGE", 3, 3),
  (43, "DMIN", 3, 3),
  (44, "DMAX", 3, 3),
  (45, "DSTDEV", 3, 3),
  (46, "VAR", 1, 30),
  (47, "DVAR", 3, 3),
  (48, "TEXT", 2, 2),
  (49, "LINEST", 1, 4),
  (50, "TREND", 1, 4),
  (51, "LOGEST", 1, 4),
  (52, "GROWTH", 1, 4),
  (53, "GOTO", 1, 1),
  (54, "HALT", 0, 1),
  (55, "RETURN", 0, 1),
  (56, "PV", 3, 5),
  (57, "FV", 3, 5),
  (58, "NPER", 3, 5),
  (59, "PMT", 3, 5),
  (60, "RATE", 3, 6),
  (61, "MIRR", 3, 3),
  (62, "IRR", 1, 2),
  (63, "RAND", 0, 0),
  (64, "MATCH", 2, 3),
  (65, "DATE", 3, 3),
  (66, "TIME", 3, 3),
  (67, "DAY", 1, 1),
  (68, "MONTH", 1, 1),
  (69, "YEAR", 1, 1),
  (70, "WEEKDAY", 1, 2),
  (71, "HOUR", 1, 1),
  (72, "MINUTE", 1, 1),
  (73, "SECOND", 1, 1),
  (74, "NOW", 0, 0),
  (75, "AREAS", 1, 1),
  (76, "ROWS", 1, 1),
  (77, "COLUMNS", 1, 1),
  (78, "OFFSET", 3, 5),
  (79, "ABSREF", 2, 2),
  (80, "RELREF", 2, 2),
  (81, "ARGUMENT", 0, 3),
  (82, "SEARCH", 2, 3),
  (83, "TRANSPOSE", 1, 1),
  (84, "ERROR", 0, 2),
  (85, "STEP", 0, 0),
  (86, "TYPE", 1, 1),
  (88, "SET.NAME", 1, 2),
  (89, "CALLER", 0, 0),
  (90, "DEREF", 1, 1),
  (91, "WINDOWS", 0, 2),
  (92, "SERIESSUM", 4, 4),
  (93, "DOCUMENTS", 0, 2),
  (94, "ACTIVE.CELL", 0, 0),
  (95, "SELECTION", 0, 0),
  (96, "RESULT", 0, 1),
  (97, "ATAN2", 2, 2),
  (98, "ASIN", 1, 1),
  (99, "ACOS", 1, 1),
  (100, "CHOOSE", 2, 30),
  (101, "HLOOKUP", 3, 4),
  (102, "VLOOKUP", 3, 4),
  (103, "LINKS", 0, 2),
  (104, "INPUT", 1, 7),
  (105, "ISREF", 1, 1),
  (106, "GET.FORMULA", 1, 1),
  (107, "GET.NAME", 1, 2),
  (108, "SET.VALUE", 2, 2),
  (109, "LOG", 1, 2),
  (110, "EXEC", 1, 4),
  (111, "CHAR", 1, 1),
  (112, "LOWER", 1, 1),
  (113, "UPPER", 1, 1),
  (114, "PROPER", 1, 1),
  (115, "LEFT", 1, 2),
  (116, "RIGHT", 1, 2),
  (117, "EXACT", 2, 2),
  (118, "TRIM", 1, 1),
  (119, "REPLACE", 4, 4),
  (120, "SUBSTITUTE", 3, 4),
  (121, "CODE", 1, 1),
  (123, "DIRECTORY", 0, 0),
  (124, "FIND", 2, 3),
  (125, "CELL", 1, 2),
  (126, "ISERR", 1, 1),
  (127, "ISTEXT", 1, 1),
  (128, "ISNUMBER", 1, 1),
  (129, "ISBLANK", 1, 1),
  (130, "T", 1, 1),
  (131, "N", 1, 1),
  (132, "FOPEN", 1, 2),
  (133, "FCLOSE", 1, 1),
  (134, "FSIZE", 1, 1),
  (135, "FREADLN", 1, 1),
  (136, "FREAD", 1, 1),
  (137, "FWRITELN", 2, 2),
  (138, "FWRITE", 2, 2),
  (139, "FPOS", 1, 2),
  (140, "DATEVALUE", 1, 1),
  (141, "TIMEVALUE", 1, 1),
  (142, "SLN", 3, 3),
  (143, "SYD", 4, 4),
  (144, "DDB", 4, 5),
  (145, "GET.DEF", 1, 3),
  (146, "REFTEXT", 1, 2),
  (147, "TEXTREF", 1, 2),
  (148, "INDIRECT", 1, 2),
  (149, "REGISTER", 0, 29),
  (150, "CALL", 1, 30),
  (151, "ADD.BAR", 1, 30),
  (152, "ADD.MENU", 1, 4),
  (153, "ADD.COMMAND", 3, 5),
  (154, "ENABLE.COMMAND", 4, 5),
  (155, "CHECK.COMMAND", 4, 5),
  (156, "RENAME.COMMAND", 4, 5),
  (157, "SHOW.BAR", 1, 1),
  (158, "DELETE.MENU", 2, 3),
  (159, "DELETE.COMMAND", 3, 4),
  (160, "GET.CHART.ITEM", 1, 3),
  (161, "DIALOG.BOX", 1, 1),
  (162, "CLEAN", 1, 1),
  (163, "MDETERM", 1, 1),
  (164, "MINVERSE", 1, 1),
  (165, "MMULT", 2, 2),
  (166, "FILES", 0, 2),
  (167, "IPMT", 4, 6),
  (168, "PPMT", 4, 6),
  (169, "COUNTA", 0, 30),
  (170, "CANCEL.KEY", 0, 2),
  (171, "FOR", 3, 4),
  (172, "WHILE", 1, 1),
  (173, "BREAK", 0, 0),
  (174, "NEXT", 0, 0),
  (175, "INITIATE", 2, 2),
  (176, "REQUEST", 2, 2),
  (177, "POKE", 3, 3),
  (178, "EXECUTE", 2, 2),
  (179, "TERMINATE", 1, 1),
  (180, "RESTART", 1, 1),
  (181, "HELP", 1, 1),
  (182, "GET.BAR", 0, 4),
  (183, "PRODUCT", 0, 30),
  (184, "FACT", 1, 1),
  (185, "GET.CELL", 1, 2),
  (186, "GET.WORKSPACE", 1, 1),
  (187, "GET.WINDOW", 1, 2),
  (188, "GET.DOCUMENT", 1, 2),
  (189, "DPRODUCT", 3, 3),
  (190, "ISNONTEXT", 1, 1),
  (191, "GET.NOTE", 0, 3),
  (192, "NOTE", 0, 4),
  (193, "STDEVP", 1, 30),
  (194, "VARP", 1, 30),
  (195, "DSTDEVP", 3, 3),
  (196, "DVARP", 3, 3),
  (197, "TRUNC", 1, 2),
  (198, "ISLOGICAL", 1, 1),
  (199, "DCOUNTA", 3, 3),
  (200, "DELETE.BAR", 1, 1),
  (201, "UNREGISTER", 1, 1),
  (204, "USDOLLAR", 1, 2),
  (205, "FINDB", 2, 3),
  (206, "SEARCHB", 2, 3),
  (207, "REPLACEB", 4, 4),
  (208, "LEFTB", 1, 2),
  (209, "RIGHTB", 1, 2),
  (210, "MIDB", 3, 3),
  (211, "LENB", 1, 1),
  (212, "ROUNDUP", 2, 2),
  (213, "ROUNDDOWN", 2, 2),
  (214, "ASC", 1, 1),
  (215, "DBCS", 1, 1),
  (216, "RANK", 2, 3),
  (219, "ADDRESS", 2, 5),
  (220, "DAYS360", 2, 3),
  (221, "TODAY", 0, 0),
  (222, "VDB", 5, 7),
  (223, "ELSE", 0, 0),
  (224, "ELSE.IF", 1, 1),
  (225, "END.IF", 0, 0),
  (226, "FOR.CELL", 1, 3),
  (227, "MEDIAN", 1, 30),
  (228, "SUMPRODUCT", 1, 30),
  (229, "SINH", 1, 1),
  (230, "COSH", 1, 1),
  (231, "TANH", 1, 1),
  (232, "ASINH", 1, 1),
  (233, "ACOSH", 1, 1),
  (234, "ATANH", 1, 1),
  (235, "DGET", 3, 3),
  (236, "CREATE.OBJECT", 2, 11),
  (237, "VOLATILE", 1, 1),
  (238, "LAST.ERROR", 0, 0),
  (239, "CUSTOM.UNDO", 0, 2),
  (240, "CUSTOM.REPEAT", 0, 3),
  (241, "FORMULA.CONVERT", 2, 5),
  (242, "GET.LINK.INFO", 2, 4),
  (243, "TEXT.BOX", 1, 4),
  (244, "INFO", 1, 1),
  (245, "GROUP", 0, 0),
  (246, "GET.OBJECT", 1, 5),
  (247, "DB", 4, 5),
  (248, "PAUSE", 1, 1),
  (251, "RESUME", 1, 1),
  (252, "FREQUENCY", 2, 2),
  (253, "ADD.TOOLBAR", 0, 2),
  (254, "DELETE.TOOLBAR", 1, 1),
  (255, "UserDefinedFunction", 1, 30),
  (256, "RESET.TOOLBAR", 1, 1),
  (257, "EVALUATE", 1, 1),
  (258, "GET.TOOLBAR", 2, 2),
  (259, "GET.TOOL", 1, 3),
  (260, "SPELLING.CHECK", 1, 3),
  (261, "ERROR.TYPE", 1, 1),
  (262, "APP.TITLE", 1, 1),
  (263, "WINDOW.TITLE", 1, 1),
  (264, "SAVE.TOOLBAR", 0, 2),
  (265, "ENABLE.TOOL", 3, 3),
  (266, "PRESS.TOOL", 3, 3),
  (267, "REGISTER.ID", 3, 3),
  (268, "GET.WORKBOOK", 1, 2),
  (269, "AVEDEV", 1, 30),
  (270, "BETADIST", 3, 5),
  (271, "GAMMALN", 1, 1),
  (272, "BETAINV", 3, 5),
  (273, "BINOMDIST", 4, 4),
  (274, "CHIDIST", 2, 2),
  (275, "CHIINV", 2, 2),
  (276, "COMBIN", 2, 2),
  (277, "CONFIDENCE", 3, 3),
  (278, "CRITBINOM", 3, 3),
  (279, "EVEN", 1, 1),
  (280, "EXPONDIST", 3, 3),
  (281, "FDIST", 3, 3),
  (282, "FINV", 3, 3),
  (283, "FISHER", 1, 1),
  (284, "FISHERINV", 1, 1),
  (285, "FLOOR", 2, 2),
  (286, "GAMMADIST", 4, 4),
  (287, "GAMMAINV", 3, 3),
  (288, "CEILING", 2, 2),
  (289, "HYPGEOMDIST", 4, 4),
  (290, "LOGNORMDIST", 3, 3),
  (291, "LOGINV", 3, 3),
  (292, "NEGBINOMDIST", 3, 3),
  (293, "NORMDIST", 4, 4),
  (294, "NORMSDIST", 1, 1),
  (295, "NORMINV", 3, 3),
  (296, "NORMSINV", 1, 1),
  (297, "STANDARDIZE", 3, 3),
  (298, "ODD", 1, 1),
  (299, "PERMUT", 2, 2),
  (300, "POISSON", 3, 3),
  (301, "TDIST", 3, 3),
  (302, "WEIBULL", 4, 4),
  (303, "SUMXMY2", 2, 2),
  (304, "SUMX2MY2", 2, 2),
  (305, "SUMX2PY2", 2, 2),
  (306, "CHITEST", 2, 2),
  (307, "CORREL", 2, 2),
  (308, "COVAR", 2, 2),
  (309, "FORECAST", 3, 3),
  (310, "FTEST", 2, 2),
  (311, "INTERCEPT", 2, 2),
  (312, "PEARSON", 2, 2),
  (313, "RSQ", 2, 2),
  (314, "STEYX", 2, 2),
  (315, "SLOPE", 2, 2),
  (316, "TTEST", 4, 4),
  (317, "PROB", 3, 4),
  (318, "DEVSQ", 1, 30),
  (319, "GEOMEAN", 1, 30),
  (320, "HARMEAN", 1, 30),
  (321, "SUMSQ", 0, 30),
  (322, "KURT", 1, 30),
  (323, "SKEW", 1, 30),
  (324, "ZTEST", 2, 3),
  (325, "LARGE", 2, 2),
  (326, "SMALL", 2, 2),
  (327, "QUARTILE", 2, 2),
  (328, "PERCENTILE", 2, 2),
  (329, "PERCENTRANK", 2, 3),
  (330, "MODE", 1, 30),
  (331, "TRIMMEAN", 2, 2),
  (332, "TINV", 2, 2),
  (336, "CONCATENATE", 0, 30),
  (337, "POWER", 2, 2),
  (342, "RADIANS", 1, 1),
  (343, "DEGREES", 1, 1),
  (344, "SUBTOTAL", 2, 30),
  (345, "SUMIF", 2, 3),
  (346, "COUNTIF", 2, 2),
  (347, "COUNTBLANK", 1, 1),
  (350, "ISPMT", 4, 4),
  (351, "DATEDIF", 3, 3),
  (352, "DATESTRING", 1, 1),
  (353, "NUMBERSTRING", 2, 2),
  (354, "ROMAN", 1, 2),
  (358, "GETPIVOTDATA", 2, 2),
  (359, "HYPERLINK", 1, 2),
  (360, "PHONETIC", 1, 1),
  (361, "AVERAGEA", 1, 30),
  (362, "MAXA", 1, 30),
  (363, "MINA", 1, 30),
  (364, "STDEVPA", 1, 30),
  (365, "VARPA", 1, 30),
  (366, "STDEVA", 1, 30),
  (367, "VARA", 1, 30),
  (368, "BAHTTEXT", 1, 1),
  (369, "THAIDAYOFWEEK", 1, 1),
  (370, "THAIDIGIT", 1, 1),
  (371, "THAIMONTHOFYEAR", 1, 1),
  (372, "THAINUMSOUND", 1, 1),
  (373, "THAINUMSTRING", 1, 1),
  (374, "THAISTRINGLENGTH", 1, 1),
  (375, "ISTHAIDIGIT", 1, 1),
  (376, "ROUNDBAHTDOWN", 1, 1),
  (377, "ROUNDBAHTUP", 1, 1),
  (378, "THAIYEAR", 1, 1),
  (379, "RTD", 2, 5),
  (32768, "BEEP", 0, 1),
  (32769, "OPEN", 0, 17),
  (32770, "OPEN.LINKS", 0, 15),
  (32771, "CLOSE.ALL", 0, 0),
  (32772, "SAVE", 0, 0),
  (32773, "SAVE.AS", 0, 7),
  (32774, "FILE.DELETE", 0, 1),
  (32775, "PAGE.SETUP", 0, 30),
  (32776, "PRINT", 0, 17),
  (32777, "PRINTER.SETUP", 0, 1),
  (32778, "QUIT", 0, 0),
  (32779, "NEW.WINDOW", 0, 0),
  (32780, "ARRANGE.ALL", 0, 4),
  (32781, "WINDOW.SIZE", 0, 3),
  (32782, "WINDOW.MOVE", 0, 3),
  (32783, "FULL", 0, 1),
  (32784, "CLOSE", 0, 2),
  (32785, "RUN", 0, 2),
  (32790, "SET.PRINT.AREA", 0, 1),
  (32791, "SET.PRINT.TITLES", 0, 2),
  (32792, "SET.PAGE.BREAK", 0, 0),
  (32793, "REMOVE.PAGE.BREAK", 0, 2),
  (32794, "FONT", 0, 2),
  (32795, "DISPLAY", 0, 9),
  (32796, "PROTECT.DOCUMENT", 0, 7),
  (32797, "PRECISION", 0, 1),
  (32798, "A1.R1C1", 0, 1),
  (32799, "CALCULATE.NOW", 0, 0),
  (32800, "CALCULATION", 0, 11),
  (32802, "DATA.FIND", 0, 1),
  (32803, "EXTRACT", 0, 1),
  (32804, "DATA.DELETE", 0, 0),
  (32805, "SET.DATABASE", 0, 0),
  (32806, "SET.CRITERIA", 0, 0),
  (32807, "SORT", 0, 17),
  (32808, "DATA.SERIES", 0, 6),
  (32809, "TABLE", 0, 2),
  (32810, "FORMAT.NUMBER", 0, 1),
  (32811, "ALIGNMENT", 0, 10),
  (32812, "STYLE", 0, 2),
  (32813, "BORDER", 0, 27),
  (32814, "CELL.PROTECTION", 0, 2),
  (32815, "COLUMN.WIDTH", 0, 5),
  (32816, "UNDO", 0, 0),
  (32817, "CUT", 0, 2),
  (32818, "COPY", 0, 2),
  (32819, "PASTE", 0, 1),
  (32820, "CLEAR", 0, 1),
  (32821, "PASTE.SPECIAL", 0, 7),
  (32822, "EDIT.DELETE", 0, 1),
  (32823, "INSERT", 0, 2),
  (32824, "FILL.RIGHT", 0, 0),
  (32825, "FILL.DOWN", 0, 0),
  (32829, "DEFINE.NAME", 0, 7),
  (32830, "CREATE.NAMES", 0, 4),
  (32831, "FORMULA.GOTO", 0, 2),
  (32832, "FORMULA.FIND", 0, 12),
  (32833, "SELECT.LAST.CELL", 0, 0),
  (32834, "SHOW.ACTIVE.CELL", 0, 0),
  (32835, "GALLERY.AREA", 0, 2),
  (32836, "GALLERY.BAR", 0, 2),
  (32837, "GALLERY.COLUMN", 0, 2),
  (32838, "GALLERY.LINE", 0, 2),
  (32839, "GALLERY.PIE", 0, 2),
  (32840, "GALLERY.SCATTER", 0, 2),
  (32841, "COMBINATION", 0, 1),
  (32842, "PREFERRED", 0, 0),
  (32843, "ADD.OVERLAY", 0, 0),
  (32844, "GRIDLINES", 0, 7),
  (32845, "SET.PREFERRED", 0, 1),
  (32846, "AXES", 0, 6),
  (32847, "LEGEND", 0, 1),
  (32848, "ATTACH.TEXT", 0, 3),
  (32849, "ADD.ARROW", 0, 0),
  (32850, "SELECT.CHART", 0, 0),
  (32851, "SELECT.PLOT.AREA", 0, 0),
  (32852, "PATTERNS", 0, 13),
  (32853, "MAIN.CHART", 0, 10),
  (32854, "OVERLAY", 0, 12),
  (32855, "SCALE", 0, 10),
  (32856, "FORMAT.LEGEND", 0, 1),
  (32857, "FORMAT.TEXT", 0, 11),
  (32858, "EDIT.REPEAT", 0, 0),
  (32859, "PARSE", 0, 2),
  (32860, "JUSTIFY", 0, 0),
  (32861, "HIDE", 0, 0),
  (32862, "UNHIDE", 0, 1),
  (32863, "WORKSPACE", 0, 16),
  (32864, "FORMULA", 0, 2),
  (32865, "FORMULA.FILL", 0, 2),
  (32866, "FORMULA.ARRAY", 0, 2),
  (32867, "DATA.FIND.NEXT", 0, 0),
  (32868, "DATA.FIND.PREV", 0, 0),
  (32869, "FORMULA.FIND.NEXT", 0, 0),
  (32870, "FORMULA.FIND.PREV", 0, 0),
  (32871, "ACTIVATE", 0, 2),
  (32872, "ACTIVATE.NEXT", 0, 1),
  (32873, "ACTIVATE.PREV", 0, 1),
  (32874, "UNLOCKED.NEXT", 0, 0),
  (32875, "UNLOCKED.PREV", 0, 0),
  (32876, "COPY.PICTURE", 0, 3),
  (32877, "SELECT", 0, 2),
  (32878, "DELETE.NAME", 0, 1),
  (32879, "DELETE.FORMAT", 0, 1),
  (32880, "VLINE", 0, 1),
  (32881, "HLINE", 0, 1),
  (32882, "VPAGE", 0, 1),
  (32883, "HPAGE", 0, 1),
  (32884, "VSCROLL", 0, 2),
  (32885, "HSCROLL", 0, 2),
  (32886, "ALERT", 0, 3),
  (32887, "NEW", 0, 3),
  (32888, "CANCEL.COPY", 0, 1),
  (32889, "SHOW.CLIPBOARD", 0, 0),
  (32890, "MESSAGE", 0, 2),
  (32892, "PASTE.LINK", 0, 0),
  (32893, "APP.ACTIVATE", 0, 2),
  (32894, "DELETE.ARROW", 0, 0),
  (32895, "ROW.HEIGHT", 0, 4),
  (32896, "FORMAT.MOVE", 0, 3),
  (32897, "FORMAT.SIZE", 0, 3),
  (32898, "FORMULA.REPLACE", 0, 11),
  (32899, "SEND.KEYS", 0, 2),
  (32900, "SELECT.SPECIAL", 0, 3),
  (32901, "APPLY.NAMES", 0, 7),
  (32902, "REPLACE.FONT", 0, 10),
  (32903, "FREEZE.PANES", 0, 3),
  (32904, "SHOW.INFO", 0, 1),
  (32905, "SPLIT", 0, 2),
  (32906, "ON.WINDOW", 0, 2),
  (32907, "ON.DATA", 0, 2),
  (32908, "DISABLE.INPUT", 0, 1),
  (32910, "OUTLINE", 0, 4),
  (32911, "LIST.NAMES", 0, 0),
  (32912, "FILE.CLOSE", 0, 2),
  (32913, "SAVE.WORKBOOK", 0, 6),
  (32914, "DATA.FORM", 0, 0),
  (32915, "COPY.CHART", 0, 1),
  (32916, "ON.TIME", 0, 4),
  (32917, "WAIT", 0, 1),
  (32918, "FORMAT.FONT", 0, 15),
  (32919, "FILL.UP", 0, 0),
  (32920, "FILL.LEFT", 0, 0),
  (32921, "DELETE.OVERLAY", 0, 0),
  (32923, "SHORT.MENUS", 0, 1),
  (32927, "SET.UPDATE.STATUS", 0, 3),
  (32929, "COLOR.PALETTE", 0, 1),
  (32930, "DELETE.STYLE", 0, 1),
  (32931, "WINDOW.RESTORE", 0, 1),
  (32932, "WINDOW.MAXIMIZE", 0, 1),
  (32934, "CHANGE.LINK", 0, 3),
  (32935, "CALCULATE.DOCUMENT", 0, 0),
  (32936, "ON.KEY", 0, 2),
  (32937, "APP.RESTORE", 0, 0),
  (32938, "APP.MOVE", 0, 2),
  (32939, "APP.SIZE", 0, 2),
  (32940, "APP.MINIMIZE", 0, 0),
  (32941, "APP.MAXIMIZE", 0, 0),
  (32942, "BRING.TO.FRONT", 0, 0),
  (32943, "SEND.TO.BACK", 0, 0),
  (32953, "MAIN.CHART.TYPE", 0, 1),
  (32954, "OVERLAY.CHART.TYPE", 0, 1),
  (32955, "SELECT.END", 0, 1),
  (32956, "OPEN.MAIL", 0, 2),
  (32957, "SEND.MAIL", 0, 3),
  (32958, "STANDARD.FONT", 0, 9),
  (32959, "CONSOLIDATE", 0, 5),
  (32960, "SORT.SPECIAL", 0, 14),
  (32961, "GALLERY.3D.AREA", 0, 1),
  (32962, "GALLERY.3D.COLUMN", 0, 1),
  (32963, "GALLERY.3D.LINE", 0, 1),
  (32964, "GALLERY.3D.PIE", 0, 1),
  (32965, "VIEW.3D", 0, 6),
  (32966, "GOAL.SEEK", 0, 3),
  (32967, "WORKGROUP", 0, 1),
  (32968, "FILL.GROUP", 0, 1),
  (32969, "UPDATE.LINK", 0, 2),
  (32970, "PROMOTE", 0, 1),
  (32971, "DEMOTE", 0, 1),
  (32972, "SHOW.DETAIL", 0, 4),
  (32974, "UNGROUP", 0, 0),
  (32975, "OBJECT.PROPERTIES", 0, 2),
  (32976, "SAVE.NEW.OBJECT", 0, 1),
  (32977, "SHARE", 0, 0),
  (32978, "SHARE.NAME", 0, 1),
  (32979, "DUPLICATE", 0, 0),
  (32980, "APPLY.STYLE", 0, 1),
  (32981, "ASSIGN.TO.OBJECT", 0, 1),
  (32982, "OBJECT.PROTECTION", 0, 2),
  (32983, "HIDE.OBJECT", 0, 2),
  (32984, "SET.EXTRACT", 0, 0),
  (32985, "CREATE.PUBLISHER", 0, 4),
  (32986, "SUBSCRIBE.TO", 0, 2),
  (32987, "ATTRIBUTES", 0, 2),
  (32988, "SHOW.TOOLBAR", 0, 10),
  (32990, "PRINT.PREVIEW", 0, 1),
  (32991, "EDIT.COLOR", 0, 4),
  (32992, "SHOW.LEVELS", 0, 2),
  (32993, "FORMAT.MAIN", 0, 14),
  (32994, "FORMAT.OVERLAY", 0, 14),
  (32995, "ON.RECALC", 0, 2),
  (32996, "EDIT.SERIES", 0, 7),
  (32997, "DEFINE.STYLE", 0, 14),
  (33008, "LINE.PRINT", 0, 11),
  (33011, "ENTER.DATA", 0, 1),
  (33017, "GALLERY.RADAR", 0, 2),
  (33018, "MERGE.STYLES", 0, 1),
  (33019, "EDITION.OPTIONS", 0, 7),
  (33020, "PASTE.PICTURE", 0, 0),
  (33021, "PASTE.PICTURE.LINK", 0, 0),
  (33022, "SPELLING", 0, 6),
  (33024, "ZOOM", 0, 1),
  (33027, "INSERT.OBJECT", 0, 13),
  (33028, "WINDOW.MINIMIZE", 0, 1),
  (33033, "SOUND.NOTE", 0, 3),
  (33034, "SOUND.PLAY", 0, 3),
  (33035, "FORMAT.SHAPE", 0, 5),
  (33036, "EXTEND.POLYGON", 0, 1),
  (33037, "FORMAT.AUTO", 0, 7),
  (33040, "GALLERY.3D.BAR", 0, 1),
  (33041, "GALLERY.3D.SURFACE", 0, 1),
  (33042, "FILL.AUTO", 0, 2),
  (33044, "CUSTOMIZE.TOOLBAR", 0, 1),
  (33045, "ADD.TOOL", 0, 3),
  (33046, "EDIT.OBJECT", 0, 1),
  (33047, "ON.DOUBLECLICK", 0, 2),
  (33048, "ON.ENTRY", 0, 2),
  (33049, "WORKBOOK.ADD", 0, 3),
  (33050, "WORKBOOK.MOVE", 0, 3),
  (33051, "WORKBOOK.COPY", 0, 3),
  (33052, "WORKBOOK.OPTIONS", 0, 3),
  (33053, "SAVE.WORKSPACE", 0, 1),
  (33056, "CHART.WIZARD", 0, 14),
  (33057, "DELETE.TOOL", 0, 2),
  (33058, "MOVE.TOOL", 0, 6),
  (33059, "WORKBOOK.SELECT", 0, 3),
  (33060, "WORKBOOK.ACTIVATE", 0, 2),
  (33061, "ASSIGN.TO.TOOL", 0, 3),
  (33063, "COPY.TOOL", 0, 2),
  (33064, "RESET.TOOL", 0, 2),
  (33065, "CONSTRAIN.NUMERIC", 0, 1),
  (33066, "PASTE.TOOL", 0, 2),
  (33070, "WORKBOOK.NEW", 0, 3),
  (33073, "SCENARIO.CELLS", 0, 1),
  (33074, "SCENARIO.DELETE", 0, 1),
  (33075, "SCENARIO.ADD", 0, 6),
  (33076, "SCENARIO.EDIT", 0, 7),
  (33077, "SCENARIO.SHOW", 0, 1),
  (33078, "SCENARIO.SHOW.NEXT", 0, 0),
  (33079, "SCENARIO.SUMMARY", 0, 2),
  (33080, "PIVOT.TABLE.WIZARD", 0, 16),
  (33081, "PIVOT.FIELD.PROPERTIES", 0, 7),
  (33082, "PIVOT.FIELD", 0, 4),
  (33083, "PIVOT.ITEM", 0, 4),
  (33084, "PIVOT.ADD.FIELDS", 0, 5),
  (33086, "OPTIONS.CALCULATION", 0, 10),
  (33087, "OPTIONS.EDIT", 0, 11),
  (33088, "OPTIONS.VIEW", 0, 18),
  (33089, "ADDIN.MANAGER", 0, 3),
  (33090, "MENU.EDITOR", 0, 0),
  (33091, "ATTACH.TOOLBARS", 0, 0),
  (33092, "VBAActivate", 0, 2),
  (33093, "OPTIONS.CHART", 0, 3),
  (33096, "VBA.INSERT.FILE", 0, 1),
  (33098, "VBA.PROCEDURE.DEFINITION", 0, 0),
  (33104, "ROUTING.SLIP", 0, 6),
  (33106, "ROUTE.DOCUMENT", 0, 0),
  (33107, "MAIL.LOGON", 0, 3),
  (33110, "INSERT.PICTURE", 0, 2),
  (33111, "EDIT.TOOL", 0, 2),
  (33112, "GALLERY.DOUGHNUT", 0, 2),
  (33118, "CHART.TREND", 0, 8),
  (33120, "PIVOT.ITEM.PROPERTIES", 0, 7),
  (33122, "WORKBOOK.INSERT", 0, 1),
  (33123, "OPTIONS.TRANSITION", 0, 5),
  (33124, "OPTIONS.GENERAL", 0, 14),
  (33138, "FILTER.ADVANCED", 0, 5),
  (33141, "MAIL.ADD.MAILER", 0, 0),
  (33142, "MAIL.DELETE.MAILER", 0, 0),
  (33143, "MAIL.REPLY", 0, 0),
  (33144, "MAIL.REPLY.ALL", 0, 0),
  (33145, "MAIL.FORWARD", 0, 0),
  (33146, "MAIL.NEXT.LETTER", 0, 0),
  (33147, "DATA.LABEL", 0, 10),
  (33148, "INSERT.TITLE", 0, 5),
  (33149, "FONT.PROPERTIES", 0, 14),
  (33150, "MACRO.OPTIONS", 0, 10),
  (33151, "WORKBOOK.HIDE", 0, 2),
  (33152, "WORKBOOK.UNHIDE", 0, 1),
  (33153, "WORKBOOK.DELETE", 0, 1),
  (33154, "WORKBOOK.NAME", 0, 2),
  (33156, "GALLERY.CUSTOM", 0, 1),
  (33158, "ADD.CHART.AUTOFORMAT", 0, 2),
  (33159, "DELETE.CHART.AUTOFORMAT", 0, 1),
  (33160, "CHART.ADD.DATA", 0, 6),
  (33161, "AUTO.OUTLINE", 0, 0),
  (33162, "TAB.ORDER", 0, 0),
  (33163, "SHOW.DIALOG", 0, 1),
  (33164, "SELECT.ALL", 0, 0),
  (33165, "UNGROUP.SHEETS", 0, 0),
  (33166, "SUBTOTAL.CREATE", 0, 6),
  (33167, "SUBTOTAL.REMOVE", 0, 0),
  (33168, "RENAME.OBJECT", 0, 1),
  (33180, "WORKBOOK.SCROLL", 0, 2),
  (33181, "WORKBOOK.NEXT", 0, 0),
  (33182, "WORKBOOK.PREV", 0, 0),
  (33183, "WORKBOOK.TAB.SPLIT", 0, 1),
  (33184, "FULL.SCREEN", 0, 1),
  (33185, "WORKBOOK.PROTECT", 0, 3),
  (33188, "SCROLLBAR.PROPERTIES", 0, 7),
  (33189, "PIVOT.SHOW.PAGES", 0, 2),
  (33190, "TEXT.TO.COLUMNS", 0, 14),
  (33191, "FORMAT.CHARTTYPE", 0, 4),
  (33192, "LINK.FORMAT", 0, 0),
  (33193, "TRACER.DISPLAY", 0, 2),
  (33198, "TRACER.NAVIGATE", 0, 3),
  (33199, "TRACER.CLEAR", 0, 0),
  (33200, "TRACER.ERROR", 0, 0),
  (33201, "PIVOT.FIELD.GROUP", 0, 4),
  (33202, "PIVOT.FIELD.UNGROUP", 0, 0),
  (33203, "CHECKBOX.PROPERTIES", 0, 5),
  (33204, "LABEL.PROPERTIES", 0, 3),
  (33205, "LISTBOX.PROPERTIES", 0, 5),
  (33206, "EDITBOX.PROPERTIES", 0, 4),
  (33207, "PIVOT.REFRESH", 0, 1),
  (33208, "LINK.COMBO", 0, 1),
  (33209, "OPEN.TEXT", 0, 17),
  (33210, "HIDE.DIALOG", 0, 1),
  (33211, "SET.DIALOG.FOCUS", 0, 1),
  (33212, "ENABLE.OBJECT", 0, 2),
  (33213, "PUSHBUTTON.PROPERTIES", 0, 6),
  (33214, "SET.DIALOG.DEFAULT", 0, 1),
  (33215, "FILTER", 0, 6),
  (33216, "FILTER.SHOW.ALL", 0, 0),
  (33217, "CLEAR.OUTLINE", 0, 0),
  (33218, "FUNCTION.WIZARD", 0, 1),
  (33219, "ADD.LIST.ITEM", 0, 2),
  (33220, "SET.LIST.ITEM", 0, 2),
  (33221, "REMOVE.LIST.ITEM", 0, 2),
  (33222, "SELECT.LIST.ITEM", 0, 2),
  (33223, "SET.CONTROL.VALUE", 0, 1),
  (33224, "SAVE.COPY.AS", 0, 1),
  (33226, "OPTIONS.LISTS.ADD", 0, 2),
  (33227, "OPTIONS.LISTS.DELETE", 0, 1),
  (33228, "SERIES.AXES", 0, 1),
  (33229, "SERIES.X", 0, 1),
  (33230, "SERIES.Y", 0, 2),
  (33231, "ERRORBAR.X", 0, 4),
  (33232, "ERRORBAR.Y", 0, 4),
  (33233, "FORMAT.CHART", 0, 18),
  (33234, "SERIES.ORDER", 0, 3),
  (33235, "MAIL.LOGOFF", 0, 0),
  (33236, "CLEAR.ROUTING.SLIP", 0, 1),
  (33237, "APP.ACTIVATE.MICROSOFT", 0, 1),
  (33238, "MAIL.EDIT.MAILER", 0, 6),
  (33239, "ON.SHEET", 0, 3),
  (33240, "STANDARD.WIDTH", 0, 1),
  (33241, "SCENARIO.MERGE", 0, 1),
  (33242, "SUMMARY.INFO", 0, 5),
  (33243, "FIND.FILE", 0, 0),
  (33244, "ACTIVE.CELL.FONT", 0, 14),
  (33245, "ENABLE.TIPWIZARD", 0, 1),
  (33246, "VBA.MAKE.ADDIN", 0, 1),
  (33248, "INSERTDATATABLE", 0, 1),
  (33249, "WORKGROUP.OPTIONS", 0, 0),
  (33250, "MAIL.SEND.MAILER", 0, 2),
  (33253, "AUTOCORRECT", 0, 2),
  (33257, "POST.DOCUMENT", 0, 1),
  (33259, "PICKLIST", 0, 0),
  (33261, "VIEW.SHOW", 0, 1),
  (33262, "VIEW.DEFINE", 0, 3),
  (33263, "VIEW.DELETE", 0, 1),
  (33277, "SHEET.BACKGROUND", 0, 2),
  (33278, "INSERT.MAP.OBJECT", 0, 0),
  (33279, "OPTIONS.MENONO", 0, 5),
  (33285, "MSOCHECKS", 0, 0),
  (33286, "NORMAL", 0, 0),
  (33287, "LAYOUT", 0, 0),
  (33288, "RM.PRINT.AREA", 0, 1),
  (33289, "CLEAR.PRINT.AREA", 0, 0),
  (33290, "ADD.PRINT.AREA", 0, 0),
  (33291, "MOVE.BRK", 0, 4),
  (33313, "HIDECURR.NOTE", 0, 2),
  (33314, "HIDEALL.NOTES", 0, 1),
  (33315, "DELETE.NOTE", 0, 1),
  (33316, "TRAVERSE.NOTES", 0, 2),
  (33317, "ACTIVATE.NOTES", 0, 2),
  (33388, "PROTECT.REVISIONS", 0, 0),
  (33389, "UNPROTECT.REVISIONS", 0, 0),
  (33415, "OPTIONS.ME", 0, 9),
  (33421, "WEB.PUBLISH", 0, 9),
  (33435, "NEWWEBQUERY", 0, 1),
  (33441, "PIVOT.TABLE.CHART", 0, 16),
  (33521, "OPTIONS.SAVE", 0, 4),
  (33523, "OPTIONS.SPELL", 0, 12),
  (33576, "HIDEALL.INKANNOTS", 0, 1)]

/-! ## Cell/range address decoding -/

/-- `adjust_cell_addr_biff8`: newer bit layout (plain 16-bit row; column
word carries the two relative flags).  Shift/mask operations of the
source are written as division/modulus (`x >> 15` is `x / 2^15`,
`x & 0xff` is `x % 256`).  In anchor mode (`reldelta` false) a relative
component with no anchor supplied is Python `int - None`, a
`TypeError`. -/
def adjust_cell_addr_biff8 (rowval colval : Nat) (reldelta : Bool)
    (browx bcolx : Option Int) : Except PyErr (Int × Int × Nat × Nat) :=
  let row_rel := colval / 32768 % 2
  let col_rel := colval / 16384 % 2
  let rowx : Int := rowval
  let colx : Int := colval % 256
  if reldelta then
    let rowx := if row_rel = 1 ∧ rowval ≥ 32768 then rowx - 65536 else rowx
    let colx := if col_rel = 1 ∧ colval % 256 ≥ 128 then colx - 256 else colx
    .ok (rowx, colx, row_rel, col_rel)
  else do
    let rowx ←
      if row_rel = 1 then
        match browx with
        | some b => Except.ok (rowx - b)
        | none => Except.error PyErr.typeError
      else Except.ok rowx
    let colx ←
      if col_rel = 1 then
        match bcolx with
        | some b => Except.ok (colx - b)
        | none => Except.error PyErr.typeError
      else Except.ok colx
    .ok (rowx, colx, row_rel, col_rel)

/-- `adjust_cell_addr_biff_le7`: older bit layout (relative flags in
bits 14-15 of the row word, row masked to 14 bits; plain column
byte). -/
def adjust_cell_addr_biff_le7 (rowval colval : Nat) (reldelta : Bool)
    (browx bcolx : Option Int) : Except PyErr (Int × Int × Nat × Nat) :=
  let row_rel := rowval / 32768 % 2
  let col_rel := rowval / 16384 % 2
  let rowx : Int := rowval % 16384
  let colx : Int := colval
  if reldelta then
    let rowx := if row_rel = 1 ∧ rowval % 16384 ≥ 8192 then rowx - 16384 else rowx
    let colx := if col_rel = 1 ∧ colval ≥ 128 then colx - 256 else colx
    .ok (rowx, colx, row_rel, col_rel)
  else do
    let rowx ←
      if row_rel = 1 then
        match browx with
        | some b => Except.ok (rowx - b)
        | none => Except.error PyErr.typeError
      else Except.ok rowx
    let colx ←
      if col_rel = 1 then
        match bcolx with
        | some b => Except.ok (colx - b)
        | none => Except.error PyErr.typeError
      else Except.ok colx
    .ok (rowx, colx, row_rel, col_rel)

/-- `get_cell_addr`: version dispatch between the two layouts. -/
def get_cell_addr (data : List Nat) (pos : Nat) (bv : Nat) (reldelta : Bool)
    (browx bcolx : Option Int) : Except PyErr (Int × Int × Nat × Nat) :=
  if bv ≥ 80 then do
    let rowval ← readU16 data pos
    let colval ← readU16 data (pos + 2)
    adjust_cell_addr_biff8 rowval colval reldelta browx bcolx
  else do
    let rowval ← readU16 data pos
    let colval ← readU8 data (pos + 2)
    adjust_cell_addr_biff_le7 rowval colval reldelta browx bcolx

/-- `get_cell_range_addr`: two consecutive address decodes
(`row1 row2 col1 col2` layout). -/
def get_cell_range_addr (data : List Nat) (pos : Nat) (bv : Nat) (reldelta : Bool)
    (browx bcolx : Option Int) :
    Except PyErr ((Int × Int × Nat × Nat) × (Int × Int × Nat × Nat)) :=
  if bv ≥ 80 then do
    let row1val ← readU16 data pos
    let row2val ← readU16 data (pos + 2)
    let col1val ← readU16 data (pos + 4)
    let col2val ← readU16 data (pos + 6)
    let res1 ← adjust_cell_addr_biff8 row1val col1val reldelta browx bcolx
    let res2 ← adjust_cell_addr_biff8 row2val col2val reldelta browx bcolx
    return (res1, res2)
  else do
    let row1val ← readU16 data pos
    let row2val ← readU16 data (pos + 2)
    let col1val ← readU8 data (pos + 4)
    let col2val ← readU8 data (pos + 5)
    let res1 ← adjust_cell_addr_biff_le7 row1val col1val reldelta browx bcolx
    let res2 ← adjust_cell_addr_biff_le7 row2val col2val reldelta browx bcolx
    return (res1, res2)

/-! ## The collaborators: `NameObject` and the `Book` state -/

/-- The defined-name collaborator object.  `macroFlag` and `binary`
carry the source attributes `macro` and `binary` (the former renamed
for Lean).  The fields from `evaluated` on are the ones the evaluator
populates. -/
structure NameObject where
  name : String := ""
  raw_formula : List Nat := []
  basic_formula_len : Nat := 0
  scope : Int := -1
  macroFlag : Bool := false
  binary : Bool := false
  evaluated : Bool := false
  stack : List StackElt := []
  result : Option StackElt := none
  any_rel : Bool := false
  any_err : Bool := false
  any_external : Bool := false
deriving DecidableEq

/-- The workbook collaborator, restricted to the fields the formula
engine reads (Python underscore prefixes dropped; `sheet_names` models
both the `_sheet_names` attribute and the `sheet_names()` accessor,
which returns it). -/
structure Book where
  biff_version : Nat := 80
  name_obj_list : List NameObject := []
  sheet_names : List String := []
  externsheet_info : List (Int × Int × Int) := []
  supbook_addins_inx : Option Int := none
  supbook_locals_inx : Option Int := none
  all_sheets_map : List Int := []
  externsheet_type_b57 : List Int := []
  addin_func_names : List String := []
deriving DecidableEq

/-! ## External/cross-sheet reference resolution -/

/-- `get_externsheet_local_range`: resolve an externsheet index to a
local sheet span or one of the negative sentinel pairs.  The `assert`
on add-in entries is the one raise site of the function. -/
def get_externsheet_local_range (bk : Book) (refx : Nat) : Except PyErr (Int × Int) :=
  match bk.externsheet_info.get? refx with
  | none => .ok (-101, -101)
  | some (ref_recordx, ref_first_sheetx, ref_last_sheetx) =>
    if bk.supbook_addins_inx = some ref_recordx then
      if ref_first_sheetx = 0xFFFE ∧ ref_last_sheetx = 0xFFFE then .ok (-5, -5)
      else .error .assertionError
    else if ¬ bk.supbook_locals_inx = some ref_recordx then .ok (-4, -4)
    else if ref_first_sheetx = 0xFFFE ∧ ref_last_sheetx = 0xFFFE then .ok (-1, -1)
    else if ref_first_sheetx = 0xFFFF ∧ ref_last_sheetx = 0xFFFF then .ok (-2, -2)
    else
      let nsheets := bk.all_sheets_map.length
      if ¬ (0 ≤ ref_first_sheetx ∧ ref_first_sheetx ≤ ref_last_sheetx ∧
            ref_last_sheetx < (nsheets : Int)) then .ok (-102, -102)
      else
        let xlrd_sheetx1 := bk.all_sheets_map.getD ref_first_sheetx.toNat 0
        let xlrd_sheetx2 := bk.all_sheets_map.getD ref_last_sheetx.toNat 0
        if ¬ (0 ≤ xlrd_sheetx1 ∧ xlrd_sheetx1 ≤ xlrd_sheetx2) then .ok (-3, -3)
        else .ok (xlrd_sheetx1, xlrd_sheetx2)

/-- `get_externsheet_local_range_b57`: the raw-descriptor resolution of
the older generations.  Total: no raise site at all. -/
def get_externsheet_local_range_b57 (bk : Book)
    (raw_extshtx ref_first_sheetx ref_last_sheetx : Int) : Int × Int :=
  if raw_extshtx > 0 then (-4, -4)
  else if ref_first_sheetx = -1 ∧ ref_last_sheetx = -1 then (-2, -2)
  else
    let nsheets := bk.all_sheets_map.length
    if ¬ (0 ≤ ref_first_sheetx ∧ ref_first_sheetx ≤ ref_last_sheetx ∧
          ref_last_sheetx < (nsheets : Int)) then (-103, -103)
    else
      let xlrd_sheetx1 := bk.all_sheets_map.getD ref_first_sheetx.toNat 0
      let xlrd_sheetx2 := bk.all_sheets_map.getD ref_last_sheetx.toNat 0
      if ¬ (0 ≤ xlrd_sheetx1 ∧ xlrd_sheetx1 ≤ xlrd_sheetx2) then (-3, -3)
      else (xlrd_sheetx1, xlrd_sheetx2)

/-! ## Reference naming utilities -/

/-- Python string indexing (negative indices wrap). -/
def pyStrIdx (s : String) (i : Int) : Except PyErr Char := pyIdx s.data i

/-- Python floor division and modulus on ints (`divmod`). -/
def pyFDiv (a b : Int) : Int := Int.fdiv a b

def pyFMod (a b : Int) : Int := a - b * Int.fdiv a b

def rownamerel (rowx : Int) (rowxrel : Nat) (browx : Option Int) (r1c1 : Bool) : String :=
  let r1c1 := r1c1 ∨ browx = none
  if rowxrel = 0 then
    if r1c1 then "R" ++ toString (rowx + 1) else "$" ++ toString (rowx + 1)
  else if r1c1 then
    if ¬ rowx = 0 then "R[" ++ toString rowx ++ "]" else "R"
  else toString (pyFMod (browx.getD 0 + rowx) 65536 + 1)

def colname (colx : Int) : Except PyErr String := do
  let alphabet := "ABCDEFGHIJKLMNOPQRSTUVWXYZ"
  if colx ≤ 25 then do
    let c ← pyStrIdx alphabet colx
    return String.mk [c]
  else
    let xdiv26 := pyFDiv colx 26
    let xmod26 := pyFMod colx 26
    let a ← pyStrIdx alphabet (xdiv26 - 1)
    let b ← pyStrIdx alphabet xmod26
    return String.mk [a, b]

def colnamerel (colx : Int) (colxrel : Nat) (bcolx : Option Int) (r1c1 : Bool) :
    Except PyErr String := do
  let r1c1 := r1c1 ∨ bcolx = none
  if colxrel = 0 then
    if r1c1 then return "C" ++ toString (colx + 1)
    else do
      let s ← colname colx
      return "$" ++ s
  else if r1c1 then
    if ¬ colx = 0 then return "C[" ++ toString colx ++ "]" else return "C"
  else colname (pyFMod (bcolx.getD 0 + colx) 256)

def cellname (rowx colx : Int) : Except PyErr String := do
  let c ← colname colx
  return c ++ toString (rowx + 1)

def cellnameabs (rowx colx : Int) (r1c1 : Bool) : Except PyErr String :=
  if r1c1 then .ok ("R" ++ toString (rowx + 1) ++ "C" ++ toString (colx + 1))
  else do
    let c ← colname colx
    return "$" ++ c ++ "$" ++ toString (rowx + 1)

def cellnamerel (rowx colx : Int) (rowxrel colxrel : Nat) (browx bcolx : Option Int)
    (r1c1 : Bool) : Except PyErr String :=
  if rowxrel = 0 ∧ colxrel = 0 then cellnameabs rowx colx r1c1
  else do
    let r1c1 := r1c1 ∨ (¬ rowxrel = 0 ∧ browx = none) ∨ (¬ colxrel = 0 ∧ bcolx = none)
    let c ← colnamerel colx colxrel bcolx r1c1
    let r := rownamerel rowx rowxrel browx r1c1
    if r1c1 then return r ++ c else return c ++ r

/-- `rangename2d` (the `r1c1` early-return of the source yields Python
`None` and is unreachable from the embedded callers, which always use
the default `r1c1=0`; only that default path is modelled). -/
def rangename2d (rlo rhi clo chi : Int) : Except PyErr String :=
  if rhi = rlo + 1 ∧ chi = clo + 1 then cellnameabs rlo clo false
  else do
    let a ← cellnameabs rlo clo false
    let b ← cellnameabs (rhi - 1) (chi - 1) false
    return a ++ ":" ++ b

def rangename2drel (coords4 : Int × Int × Int × Int) (relflags4 : Nat × Nat × Nat × Nat)
    (browx bcolx : Option Int) (r1c1 : Bool) : Except PyErr String := do
  let (rlo, rhi, clo, chi) := coords4
  let (rlorel, rhirel, clorel, chirel) := relflags4
  let r1c1 := r1c1 ∨ ((¬ rlorel = 0 ∨ ¬ rhirel = 0) ∧ browx = none)
      ∨ ((¬ clorel = 0 ∨ ¬ chirel = 0) ∧ bcolx = none)
  let a ← cellnamerel rlo clo rlorel clorel browx bcolx r1c1
  let b ← cellnamerel (rhi - 1) (chi - 1) rhirel chirel browx bcolx r1c1
  return a ++ ":" ++ b

/-- Python `s.replace(old, new)` for one-character patterns (the only
shape used in the source). -/
def pyReplaceChar (s : String) (old : Char) (new : String) : String :=
  String.join (s.data.map fun c => if c = old then new else String.mk [c])

def quotedsheetname (shnames : List String) (shx : Int) : Except PyErr String := do
  let shname ←
    if shx ≥ 0 then pyIdx shnames shx
    else if shx = -1 then Except.ok "?internal; any sheet?"
    else if shx = -2 then Except.ok "internal; deleted sheet"
    else if shx = -3 then Except.ok "internal; macro sheet"
    else if shx = -4 then Except.ok "<<external>>"
    else Except.ok ("?error " ++ toString shx ++ "?")
  if shname.data.contains (Char.ofNat 39) then
    return "\x27" ++ pyReplaceChar shname (Char.ofNat 39) "\x27\x27" ++ "\x27"
  else if shname.data.contains ' ' then
    return "\x27" ++ shname ++ "\x27"
  else return shname

def sheetrange (bk : Book) (slo shi : Int) : Except PyErr String := do
  let shnames := bk.sheet_names
  let shdesc ← quotedsheetname shnames slo
  if ¬ slo = shi - 1 then do
    let d2 ← quotedsheetname shnames (shi - 1)
    return shdesc ++ ":" ++ d2
  else return shdesc

def sheetrangerel (bk : Book) (srange : Int × Int) (srangerel : Nat × Nat) :
    Except PyErr String :=
  let (slo, shi) := srange
  let (slorel, shirel) := srangerel
  if slorel = 0 ∧ shirel = 0 then sheetrange bk slo shi
  else if (slo = 0 ∧ shi - 1 = 0) ∧ ¬ slorel = 0 ∧ ¬ shirel = 0 then .ok ""
  else .error .assertionError

/-- Accessors for the six coordinates/flags of a `Ref3D` (`shtxlo` is
index 0, &c.; all reachable boxes carry full 6-entry lists). -/
def Ref3D.coordAt (r : Ref3D) (i : Nat) : Int := r.coords.getD i 0

def Ref3D.flagAt (r : Ref3D) (i : Nat) : Nat := (r.relflags.getD i 0).toNat

def rangename3d (bk : Book) (r : Ref3D) : Except PyErr String := do
  let s ← sheetrange bk (r.coordAt 0) (r.coordAt 1)
  let rd ← rangename2d (r.coordAt 2) (r.coordAt 3) (r.coordAt 4) (r.coordAt 5)
  return s ++ "!" ++ rd

def rangename3drel (bk : Book) (r : Ref3D) (browx bcolx : Option Int) (r1c1 : Bool) :
    Except PyErr String := do
  let shdesc ← sheetrangerel bk (r.coordAt 0, r.coordAt 1) (r.flagAt 0, r.flagAt 1)
  let rngdesc ← rangename2drel (r.coordAt 2, r.coordAt 3, r.coordAt 4, r.coordAt 5)
      (r.flagAt 2, r.flagAt 3, r.flagAt 4, r.flagAt 5) browx bcolx r1c1
  if shdesc = "" then return rngdesc else return shdesc ++ "!" ++ rngdesc

/-! ## Box combination (`do_box_funcs` and the two function tables) -/

def tRangeFuncs : List (Int → Int → Int) := [min, max, min, max, min, max]

def tIsectFuncs : List (Int → Int → Int) := [max, min, max, min, max, min]

/-- `zip(box_funcs, boxa.coords, boxb.coords)` folded through
application: the coordinatewise combination of two boxes. -/
def do_box_funcs (box_funcs : List (Int → Int → Int)) (boxa boxb : Ref3D) : List Int :=
  (box_funcs.zip (boxa.coords.zip boxb.coords)).map fun (f, a, b) => f a b

/-! ## Binary/unary operator rules (`binop_rules`, `unop_rules`) -/

/-- Python `+` as used by `opr.add`: numeric addition or string
concatenation; a mixed pair raises `TypeError`. -/
def pyAddV : XLValue → XLValue → Except PyErr XLValue
  | .num a, .num b => .ok (.num (a.add b))
  | .str a, .str b => .ok (.str (a ++ b))
  | _, _ => .error .typeError

def pySubV : XLValue → XLValue → Except PyErr XLValue
  | .num a, .num b => .ok (.num (a.sub b))
  | _, _ => .error .typeError

def pyMulV : XLValue → XLValue → Except PyErr XLValue
  | .num a, .num b => .ok (.num (a.mul b))
  | _, _ => .error .typeError

/-- `opr.truediv`: float division, `ZeroDivisionError` on a zero
divisor. -/
def pyDivV : XLValue → XLValue → Except PyErr XLValue
  | .num a, .num b => if b.isZero then .error .zeroDivisionError else .ok (.num (a.divBy b))
  | _, _ => .error .typeError

def pyPowV : XLValue → XLValue → Except PyErr XLValue
  | .num a, .num b => (Flt.pow a b).map .num
  | _, _ => .error .typeError

def pyBool (b : Bool) : XLValue := .num (if b then Flt.ofInt 1 else Flt.ofInt 0)

/-- Python `<` (Python 3: ordered comparison between a string and a
number raises `TypeError`; strings compare lexicographically by code
point). -/
def pyLtV : XLValue → XLValue → Except PyErr XLValue
  | .num a, .num b => .ok (pyBool (a.lt b))
  | .str a, .str b => .ok (pyBool (decide (a < b)))
  | _, _ => .error .typeError

def pyLeV : XLValue → XLValue → Except PyErr XLValue
  | .num a, .num b => .ok (pyBool (a.le b))
  | .str a, .str b => .ok (pyBool (decide (a ≤ b)))
  | _, _ => .error .typeError

def pyGtV (a b : XLValue) : Except PyErr XLValue := pyLtV b a

def pyGeV (a b : XLValue) : Except PyErr XLValue := pyLeV b a

/-- Python `==`: never raises; values of different types are simply
unequal (box lists compare structurally). -/
def pyEqV : XLValue → XLValue → Except PyErr XLValue
  | .num a, .num b => .ok (pyBool (a = b))
  | .str a, .str b => .ok (pyBool (a = b))
  | .refs a, .refs b => .ok (pyBool (a = b))
  | _, _ => .ok (pyBool false)

def pyNeV : XLValue → XLValue → Except PyErr XLValue := fun a b => do
  let r ← pyEqV a b
  return pyBool (¬ xlTruthy r)

/-- The three conversion dictionaries (`_arith_argdict`, `_cmp_argdict`,
`_strg_argdict`): which argument-coercion table a binary operator
uses. -/
inductive ArgConvKind where
  | arith
  | cmp
  | strg
deriving DecidableEq

/-- `float(value)`: identity on numbers, parse on strings, `TypeError`
on a box list. -/
def pyFloatConv : XLValue → Except PyErr XLValue
  | .num q => .ok (.num q)
  | .str s => (pyFloatOfString s).map .num
  | .refs _ => .error .typeError

/-- `num2strg(value)` as a conversion (only reachable for values of
kind `oNUM`; a box list never carries that kind). -/
def num2strgConv : XLValue → Except PyErr XLValue
  | .num q => .ok (.str (num2strg q))
  | .str s => .ok (.str s)
  | .refs _ => .error .typeError

/-- `argdict[kind]`: `none` models the `KeyError` the caller catches. -/
def applyConv : ArgConvKind → Int → Option (XLValue → Except PyErr XLValue)
  | .arith, k =>
    if k = oNUM then some (fun v => .ok v)
    else if k = oSTRG then some pyFloatConv
    else none
  | .cmp, k =>
    if k = oNUM ∨ k = oSTRG then some (fun v => .ok v) else none
  | .strg, k =>
    if k = oNUM then some num2strgConv
    else if k = oSTRG then some (fun v => .ok v)
    else none

/-- `binop_rules`: conversion table, result kind, operator function,
rank and rendering symbol, per opcode. -/
def binop_rules (opcd : Nat) :
    Option (ArgConvKind × Int × (XLValue → XLValue → Except PyErr XLValue) × Nat × String) :=
  if opcd = 0x03 then some (.arith, oNUM, pyAddV, 30, "+")
  else if opcd = 0x04 then some (.arith, oNUM, pySubV, 30, "-")
  else if opcd = 0x05 then some (.arith, oNUM, pyMulV, 40, "*")
  else if opcd = 0x06 then some (.arith, oNUM, pyDivV, 40, "/")
  else if opcd = 0x07 then some (.arith, oNUM, pyPowV, 50, "^")
  else if opcd = 0x08 then some (.strg, oSTRG, pyAddV, 20, "&")
  else if opcd = 0x09 then some (.cmp, oBOOL, pyLtV, 10, "<")
  else if opcd = 0x0A then some (.cmp, oBOOL, pyLeV, 10, "<=")
  else if opcd = 0x0B then some (.cmp, oBOOL, pyEqV, 10, "=")
  else if opcd = 0x0C then some (.cmp, oBOOL, pyGeV, 10, ">=")
  else if opcd = 0x0D then some (.cmp, oBOOL, pyGtV, 10, ">")
  else if opcd = 0x0E then some (.cmp, oBOOL, pyNeV, 10, "<>")
  else none

def pyNegV : XLValue → Except PyErr XLValue
  | .num q => .ok (.num q.neg)
  | _ => .error .typeError

def pyPercentV : XLValue → Except PyErr XLValue
  | .num q => .ok (.num (q.divBy (Flt.ofInt 100)))
  | _ => .error .typeError

/-- `unop_rules`: function, rank, prefix symbol, suffix symbol. -/
def unop_rules (opcode : Nat) :
    Option ((XLValue → Except PyErr XLValue) × Nat × String × String) :=
  if opcode = 0x13 then some (pyNegV, 70, "-", "")
  else if opcode = 0x12 then some (fun v => .ok v, 70, "+", "")
  else if opcode = 0x14 then some (pyPercentV, 60, "", "%")
  else none

def LEAF_RANK : Nat := 90

def FUNC_RANK : Nat := 90

def STACK_ALARM_LEVEL : Nat := 5

def STACK_PANIC_LEVEL : Nat := 10

/-- Parenthesise a child whose precedence rank is below the
operator's. -/
def parenWrap (o : Operand) (rank : Nat) : String :=
  (if o.rank < rank then "(" else "") ++ o.text ++ (if o.rank < rank then ")" else "")

/-! ## The evaluator (`evaluate_name_formula`), token by token -/

/-- Inner `do_binop` of `evaluate_name_formula`: pop two, coerce by the
operator's argument dictionary (a missing kind is the caught
`KeyError`), compute when both values are known. -/
def evaluate_do_binop (opcd : Nat) (stk : List StackElt) : Except PyErr (List StackElt) := do
  if stk.length < 2 then throw .assertionError
  let (be, stk) ← pyPop stk
  let (ae, stk) ← pyPop stk
  match binop_rules opcd with
  | none => throw .keyError
  | some (argdict, result_kind, func, rank, sym) => do
    let aop ← ae.getOp
    let bop ← be.getOp
    let otext := parenWrap aop rank ++ sym ++ parenWrap bop rank
    let resop : Operand := { kind := result_kind, value := none, rank := rank, text := otext }
    match applyConv argdict bop.kind, applyConv argdict aop.kind with
    | some bconv, some aconv =>
      match bop.value, aop.value with
      | some bv0, some av0 => do
        let bval ← bconv bv0
        let aval ← aconv av0
        let result ← func aval bval
        let result := if result_kind = oBOOL then pyBool (xlTruthy result) else result
        return stk ++ [.op { resop with value := some result }]
      | _, _ => return stk ++ [.op resop]
    | _, _ => return stk ++ [.op resop]

/-- Inner `do_unaryop` of `evaluate_name_formula`. -/
def evaluate_do_unaryop (opcode : Nat) (result_kind : Int) (stk : List StackElt) :
    Except PyErr (List StackElt) := do
  if stk.length < 1 then throw .assertionError
  let (ae, stk) ← pyPop stk
  let aop ← ae.getOp
  match unop_rules opcode with
  | none => throw .keyError
  | some (func, rank, sym1, sym2) => do
    let otext := sym1 ++ parenWrap aop rank ++ sym2
    let val ←
      match aop.value with
      | none => pure none
      | some v => do
        let r ← func v
        pure (some r)
    return stk ++ [.op { kind := result_kind, value := val, rank := rank, text := otext }]

/-- The evaluator's `tIsect` handler: Error dominates, Unknown degrades,
matching reference kinds intersect their (single) boxes coordinatewise
by `tIsectFuncs`.  (The freshly built result keeps the default rank 0
here: `Operand(oREF)` is constructed without a rank argument.) -/
def eval_tIsect (stk : List StackElt) : Except PyErr (List StackElt) := do
  if stk.length < 2 then throw .assertionError
  let (be, stk) ← pyPop stk
  let (ae, stk) ← pyPop stk
  let aop ← ae.getOp
  let bop ← be.getOp
  let rank := 80
  let otext := parenWrap aop rank ++ " " ++ parenWrap bop rank
  let res0 : Operand := { kind := oREF, text := otext }
  let res ←
    if bop.kind = oERR ∨ aop.kind = oERR then pure { res0 with kind := oERR }
    else if bop.kind = oUNK ∨ aop.kind = oUNK then pure res0
    else if bop.kind = oREF ∧ aop.kind = oREF then
      match aop.value, bop.value with
      | some (.refs ra), some (.refs rb) =>
        if ra.length = 1 ∧ rb.length = 1 then
          pure { res0 with value := some (.refs [Ref3D.ofTuple
            (do_box_funcs tIsectFuncs (ra.headD ⟨[], []⟩) (rb.headD ⟨[], []⟩))]) }
        else throw .assertionError
      | some _, some _ => throw .typeError
      | _, _ => pure res0
    else if bop.kind = oREL ∧ aop.kind = oREL then
      match aop.value, bop.value with
      | some (.refs ra), some (.refs rb) =>
        if ra.length = 1 ∧ rb.length = 1 then
          let boxa := ra.headD ⟨[], []⟩
          let boxb := rb.headD ⟨[], []⟩
          let coords := do_box_funcs tIsectFuncs boxa boxb
          if boxa.relflags = boxb.relflags then
            pure { res0 with
                   kind := oREL
                   value := some (.refs [Ref3D.ofTuple (coords ++ boxa.relflags)]) }
          else pure { res0 with kind := oREL }
        else throw .assertionError
      | some _, some _ => throw .typeError
      | _, _ => pure { res0 with kind := oREL }
    else pure res0
  return stk ++ [.op res]

/-- The evaluator's `tList` handler: Error dominates, reference pairs
concatenate their box sequences (no combination). -/
def eval_tList (stk : List StackElt) : Except PyErr (List StackElt) := do
  if stk.length < 2 then throw .assertionError
  let (be, stk) ← pyPop stk
  let (ae, stk) ← pyPop stk
  let aop ← ae.getOp
  let bop ← be.getOp
  let rank := 80
  let otext := parenWrap aop rank ++ "," ++ parenWrap bop rank
  let res0 : Operand := { kind := oREF, value := none, rank := rank, text := otext }
  let res ←
    if bop.kind = oERR ∨ aop.kind = oERR then pure { res0 with kind := oERR }
    else if (bop.kind = oREF ∨ bop.kind = oREL) ∧ (aop.kind = oREF ∨ aop.kind = oREL) then do
      let kind := if aop.kind = oREL ∨ bop.kind = oREL then oREL else oREF
      match aop.value, bop.value with
      | some (.refs ra), some (.refs rb) =>
        if ra.length ≥ 1 ∧ rb.length = 1 then
          pure { res0 with kind := kind, value := some (.refs (ra ++ rb)) }
        else throw .assertionError
      | some _, some _ => throw .typeError
      | _, _ => pure { res0 with kind := kind }
    else pure res0
  return stk ++ [.op res]

/-- The evaluator's `tRange` handler.  Note the error branch: the source
assigns `res = oERR`, replacing the operand by the bare kind constant,
so the element pushed there is a Python `int`, not an `Operand`. -/
def eval_tRange (stk : List StackElt) : Except PyErr (List StackElt) := do
  if stk.length < 2 then throw .assertionError
  let (be, stk) ← pyPop stk
  let (ae, stk) ← pyPop stk
  let aop ← ae.getOp
  let bop ← be.getOp
  let rank := 80
  let otext := parenWrap aop rank ++ ":" ++ parenWrap bop rank
  let res0 : Operand := { kind := oREF, value := none, rank := rank, text := otext }
  if bop.kind = oERR ∨ aop.kind = oERR then
    return stk ++ [.intObj oERR]
  else do
    let res ←
      if bop.kind = oREF ∧ aop.kind = oREF then
        match aop.value, bop.value with
        | some (.refs ra), some (.refs rb) =>
          if ra.length = 1 ∧ rb.length = 1 then
            pure { res0 with value := some (.refs [Ref3D.ofTuple
              (do_box_funcs tRangeFuncs (ra.headD ⟨[], []⟩) (rb.headD ⟨[], []⟩))]) }
          else throw .assertionError
        | some _, some _ => throw .typeError
        | _, _ => pure res0
      else if bop.kind = oREL ∧ aop.kind = oREL then
        match aop.value, bop.value with
        | some (.refs ra), some (.refs rb) =>
          if ra.length = 1 ∧ rb.length = 1 then
            let boxa := ra.headD ⟨[], []⟩
            let boxb := rb.headD ⟨[], []⟩
            let coords := do_box_funcs tRangeFuncs boxa boxb
            if boxa.relflags = boxb.relflags then
              pure { res0 with
                     kind := oREL
                     value := some (.refs [Ref3D.ofTuple (coords ++ boxa.relflags)]) }
            else pure { res0 with kind := oREL }
          else throw .assertionError
        | some _, some _ => throw .typeError
        | _, _ => pure { res0 with kind := oREL }
      else pure res0
    return stk ++ [.op res]

/-- `",".join(arg.text for arg in ...)` (attribute access may raise on
a bare int). -/
def joinTexts (l : List StackElt) : Except PyErr String := do
  let ts ← l.mapM StackElt.getText
  return String.intercalate listsep ts

/-- `testarg.value in (0, 1)` (numeric equality; `None` and strings are
in neither). -/
def valueIn01 : Option XLValue → Bool
  | some (.num q) => decide (q = Flt.ofInt 0) || decide (q = Flt.ofInt 1)
  | _ => false

/-- Python truthiness of `testarg.value` (`None` is falsy). -/
def optTruthy : Option XLValue → Bool
  | some v => xlTruthy v
  | none => false

/-- `int(testarg.value)` on a value the guards have pinned to a
number. -/
def truncOpt : Option XLValue → Int
  | some (.num q) => q.trunc
  | _ => 0

/-- The evaluator's `tFunc` handler: fixed-arity call; an unknown
function id degrades to an Unknown leaf. -/
def eval_tFunc (bv : Nat) (data : List Nat) (pos : Nat) (stk : List StackElt) :
    Except PyErr (List StackElt) := do
  let funcx ← if bv ≥ 40 then readU16 data (pos + 1) else readU8 data (pos + 1)
  match func_defs.lookup funcx with
  | none => return stk ++ [.op unk_opnd]
  | some (func_name, nargs, _) => do
    if stk.length < nargs then throw .assertionError
    if ¬ nargs = 0 then do
      let argtext ← joinTexts (pyTailSlice stk nargs)
      let otext := func_name ++ "(" ++ argtext ++ ")"
      return pyDelTail stk nargs ++ [.op { kind := oUNK, value := none, rank := FUNC_RANK, text := otext }]
    else
      return stk ++ [.op { kind := oUNK, value := none, rank := FUNC_RANK, text := func_name ++ "()" }]

/-- The evaluator's `tFuncVar` handler, including the IF and CHOOSE
constant folding.  The argument-text slice and the closing
`del stack[-nargs:]` are unguarded in the evaluator, so `nargs = 0`
consumes the whole stack (the `-0` slice quirk). -/
def eval_tFuncVar (bv : Nat) (data : List Nat) (pos : Nat) (stk : List StackElt) :
    Except PyErr (List StackElt) := do
  let nargsByte ← readU8 data (pos + 1)
  let funcxRaw ← if bv ≥ 40 then readU16 data (pos + 2) else readU8 data (pos + 2)
  let nargs := nargsByte % 128
  let funcx := funcxRaw % 32768
  match func_defs.lookup funcx with
  | none => return stk ++ [.op unk_opnd]
  | some (func_name, minargs, maxargs) => do
    if ¬ (minargs ≤ nargs ∧ nargs ≤ maxargs) then throw .assertionError
    if stk.length < nargs then throw .assertionError
    let argtext ← joinTexts (pyTailSlice stk nargs)
    let otext := func_name ++ "(" ++ argtext ++ ")"
    let res0 : Operand := { kind := oUNK, value := none, rank := FUNC_RANK, text := otext }
    let res ←
      if funcx = 1 then do
        let te ← pyIdx stk (-(nargs : Int))
        let testarg ← te.getOp
        if ¬ (testarg.kind = oNUM ∨ testarg.kind = oBOOL) then pure res0
        else if ¬ valueIn01 testarg.value then pure res0
        else if nargs = 2 ∧ ¬ optTruthy testarg.value then
          pure { res0 with kind := oBOOL, value := some (XLValue.num (Flt.ofInt 0)) }
        else do
          let respos : Int := -(nargs : Int) + 2 - truncOpt testarg.value
          let ce ← pyIdx stk respos
          let chosen ← ce.getOp
          if chosen.kind = oMSNG then
            pure { res0 with kind := oNUM, value := some (XLValue.num (Flt.ofInt 0)) }
          else pure { res0 with kind := chosen.kind, value := chosen.value }
      else if funcx = 100 then do
        let te ← pyIdx stk (-(nargs : Int))
        let testarg ← te.getOp
        if testarg.kind = oNUM then
          match testarg.value with
          | some (.num q) =>
            if (Flt.ofInt 1).le q && q.lt (Flt.ofNat nargs) then do
              let ce ← pyIdx stk (-(nargs : Int) + q.trunc)
              let chosen ← ce.getOp
              if chosen.kind = oMSNG then
                pure { res0 with kind := oNUM, value := some (XLValue.num (Flt.ofInt 0)) }
              else pure { res0 with kind := chosen.kind, value := chosen.value }
            else pure res0
          | _ => throw .typeError
        else pure res0
      else pure res0
    return pyDelTail stk nargs ++ [.op res]

/-- The verbose-tracing switch at the head of both walkers:
`if level > STACK_ALARM_LEVEL: blah = 1`.  Tracing turns on only for
calls strictly deeper than the alarm level. -/
def effective_blah (blah : Bool) (level : Nat) : Bool :=
  blah || decide (level > STACK_ALARM_LEVEL)

/-- The recursive-evaluation callback type (`evaluate_name_formula`
applied at a smaller fuel). -/
abbrev EvalNameFn := Book → Int → Bool → Nat → Except PyErr Book

/-- The evaluator's `tName` handler: memoized recursive evaluation of
the target name, then a deep copy of its cached single-operand stack
with rank and text reset for the referencing context. -/
def eval_tName (evalName : EvalNameFn) (bk : Book) (data : List Nat) (pos : Nat)
    (blah : Bool) (level : Nat) (stk : List StackElt) (any_rel any_err : Bool) :
    Except PyErr (Book × List StackElt × Bool × Bool) := do
  let w ← readU16 data (pos + 1)
  let tgtnamex : Int := (w : Int) - 1
  let tgtobj ← pyIdx bk.name_obj_list tgtnamex
  let bk ← if ¬ tgtobj.evaluated then evalName bk tgtnamex blah (level + 1) else pure bk
  let tgtobj ← pyIdx bk.name_obj_list tgtnamex
  let (res, any_err, any_rel) ←
    if tgtobj.macroFlag ∨ tgtobj.binary ∨ tgtobj.any_err then
      pure (StackElt.op { kind := oUNK, value := none },
            any_err || tgtobj.macroFlag || tgtobj.binary || tgtobj.any_err,
            any_rel || tgtobj.any_rel)
    else
      if ¬ tgtobj.stack.length = 1 then throw .assertionError
      else pure (tgtobj.stack.headD (.intObj 0), any_err, any_rel)
  let o ← res.getOp
  let text ←
    if tgtobj.scope = -1 then pure tgtobj.name
    else do
      let sn ← pyIdx bk.sheet_names tgtobj.scope
      pure (sn ++ "!" ++ tgtobj.name)
  return (bk, stk ++ [.op { o with rank := LEAF_RANK, text := text }], any_rel, any_err)

/-- The evaluator's `tNameX` handler (cross-workbook name
reference). -/
def eval_tNameX (evalName : EvalNameFn) (bk : Book) (bv : Nat) (data : List Nat)
    (pos : Nat) (namex : Int) (blah : Bool) (level : Nat) (stk : List StackElt)
    (any_rel any_err : Bool) : Except PyErr (Book × List StackElt × Bool × Bool) := do
  let (origrefx, refx, tgtnamex, dodgy) ←
    if bv ≥ 80 then do
      let r ← readU16 data (pos + 1)
      let t ← readU16 data (pos + 3)
      pure ((r : Int), (r : Int), (t : Int) - 1, false)
    else do
      let r ← readI16 data (pos + 1)
      let t ← readU16 data (pos + 11)
      if r > 0 then pure (r, r - 1, (t : Int) - 1, false)
      else if r < 0 then pure (r, -r - 1, (t : Int) - 1, false)
      else pure (r, r, (t : Int) - 1, true)
  let (dodgy, any_err) := if tgtnamex = namex then (true, true) else (dodgy, any_err)
  let shx ←
    if ¬ dodgy then
      if bv ≥ 80 then do
        let p ← get_externsheet_local_range bk refx.toNat
        pure (some p)
      else if origrefx > 0 then pure (some ((-4 : Int), (-4 : Int)))
      else do
        let exty ← pyIdx bk.externsheet_type_b57 refx
        pure (some (if exty = 4 then ((-1 : Int), (-1 : Int)) else (-666, -666)))
    else pure none
  let errcase : Bool := dodgy || (match shx with | some (s1, _) => decide (s1 < -1) | none => false)
  if errcase then
    let otext := "<<Name #" ++ toString tgtnamex ++ " in external(?) file #"
        ++ toString origrefx ++ ">>"
    return (bk, stk ++ [.op { kind := oUNK, value := none, rank := LEAF_RANK, text := otext }],
            any_rel, any_err)
  else do
    let tgtobj ← pyIdx bk.name_obj_list tgtnamex
    let bk ← if ¬ tgtobj.evaluated then evalName bk tgtnamex blah (level + 1) else pure bk
    let tgtobj ← pyIdx bk.name_obj_list tgtnamex
    let (res, any_err, any_rel) ←
      if tgtobj.macroFlag ∨ tgtobj.binary ∨ tgtobj.any_err then
        pure (StackElt.op { kind := oUNK, value := none },
              any_err || tgtobj.macroFlag || tgtobj.binary || tgtobj.any_err,
              any_rel || tgtobj.any_rel)
      else
        if ¬ tgtobj.stack.length = 1 then throw .assertionError
        else pure (tgtobj.stack.headD (.intObj 0), any_err, any_rel)
    let o ← res.getOp
    let text ←
      if tgtobj.scope = -1 then pure tgtobj.name
      else do
        let sn ← pyIdx bk.sheet_names tgtobj.scope
        pure (sn ++ "!" ++ tgtobj.name)
    return (bk, stk ++ [.op { o with rank := LEAF_RANK, text := text }], any_rel, any_err)

/-- The evaluator's `tRef` handler (same-sheet single cell; name
formulas use delta mode, no anchor).  The loop sets `any_rel`
unconditionally at this token. -/
def eval_tRef (bv : Nat) (data : List Nat) (pos : Nat) (optype : Nat)
    (stk : List StackElt) : Except PyErr (List StackElt) := do
  let (rowx, colx, row_rel, col_rel) ← get_cell_addr data (pos + 1) bv true none none
  let coords : List Int := [0, 1, rowx, rowx + 1, colx, colx + 1]
  if optype = 1 then
    let relflags : List Int := [1, 1, (row_rel : Int), (row_rel : Int), (col_rel : Int), (col_rel : Int)]
    return stk ++ [.op { kind := oREL, value := some (.refs [Ref3D.ofTuple (coords ++ relflags)]) }]
  else
    return stk ++ [.op { kind := oUNK, value := none }]

/-- The evaluator's `tArea` handler (same-sheet box). -/
def eval_tArea (bv : Nat) (data : List Nat) (pos : Nat) (optype : Nat)
    (stk : List StackElt) : Except PyErr (List StackElt) := do
  let (res1, res2) ← get_cell_range_addr data (pos + 1) bv true none none
  let (rowx1, colx1, row_rel1, col_rel1) := res1
  let (rowx2, colx2, row_rel2, col_rel2) := res2
  let coords : List Int := [0, 1, rowx1, rowx2 + 1, colx1, colx2 + 1]
  if optype = 1 then
    let relflags : List Int := [1, 1, (row_rel1 : Int), (row_rel2 : Int), (col_rel1 : Int), (col_rel2 : Int)]
    return stk ++ [.op { kind := oREL, value := some (.refs [Ref3D.ofTuple (coords ++ relflags)]) }]
  else
    return stk ++ [.op { kind := oUNK, value := none }]

/-- The evaluator's `tRef3d` handler: 3-D single cell, resolved through
the externsheet table (or the raw descriptor before BIFF8). -/
def eval_tRef3d (bk : Book) (bv : Nat) (data : List Nat) (pos : Nat) (optype : Nat)
    (stk : List StackElt) (any_rel any_err : Bool) :
    Except PyErr (List StackElt × Bool × Bool) := do
  let (res, shxs) ←
    if bv ≥ 80 then do
      let r ← get_cell_addr data (pos + 3) bv true none none
      let refx ← readU16 data (pos + 1)
      let s ← get_externsheet_local_range bk refx
      pure (r, s)
    else do
      let r ← get_cell_addr data (pos + 15) bv true none none
      let raw_extshtx ← readI16 data (pos + 1)
      let raw_shx1 ← readI16 data (pos + 11)
      let raw_shx2 ← readI16 data (pos + 13)
      pure (r, get_externsheet_local_range_b57 bk raw_extshtx raw_shx1 raw_shx2)
  let (rowx, colx, row_rel, col_rel) := res
  let (shx1, shx2) := shxs
  let is_rel : Bool := decide (¬ row_rel = 0) || decide (¬ col_rel = 0)
  let any_rel := any_rel || is_rel
  let coords : List Int := [shx1, shx2 + 1, rowx, rowx + 1, colx, colx + 1]
  let any_err := any_err || decide (shx1 < -1)
  if is_rel then do
    let relflags : List Int := [0, 0, (row_rel : Int), (row_rel : Int), (col_rel : Int), (col_rel : Int)]
    let ref3d := Ref3D.ofTuple (coords ++ relflags)
    let text ← rangename3drel bk ref3d none none true
    let value := if optype = 1 then some (XLValue.refs [ref3d]) else none
    return (stk ++ [.op { kind := oREL, value := value, rank := LEAF_RANK, text := text }],
            any_rel, any_err)
  else do
    let ref3d := Ref3D.ofTuple coords
    let text ← rangename3d bk ref3d
    let value := if optype = 1 then some (XLValue.refs [ref3d]) else none
    return (stk ++ [.op { kind := oREF, value := value, rank := LEAF_RANK, text := text }],
            any_rel, any_err)

/-- The evaluator's `tArea3d` handler. -/
def eval_tArea3d (bk : Book) (bv : Nat) (data : List Nat) (pos : Nat) (optype : Nat)
    (stk : List StackElt) (any_rel any_err : Bool) :
    Except PyErr (List StackElt × Bool × Bool) := do
  let (res12, shxs) ←
    if bv ≥ 80 then do
      let r ← get_cell_range_addr data (pos + 3) bv true none none
      let refx ← readU16 data (pos + 1)
      let s ← get_externsheet_local_range bk refx
      pure (r, s)
    else do
      let r ← get_cell_range_addr data (pos + 15) bv true none none
      let raw_extshtx ← readI16 data (pos + 1)
      let raw_shx1 ← readI16 data (pos + 11)
      let raw_shx2 ← readI16 data (pos + 13)
      pure (r, get_externsheet_local_range_b57 bk raw_extshtx raw_shx1 raw_shx2)
  let (shx1, shx2) := shxs
  let any_err := any_err || decide (shx1 < -1)
  let (res1, res2) := res12
  let (rowx1, colx1, row_rel1, col_rel1) := res1
  let (rowx2, colx2, row_rel2, col_rel2) := res2
  let is_rel : Bool := decide (¬ row_rel1 = 0) || decide (¬ col_rel1 = 0)
      || decide (¬ row_rel2 = 0) || decide (¬ col_rel2 = 0)
  let any_rel := any_rel || is_rel
  let coords : List Int := [shx1, shx2 + 1, rowx1, rowx2 + 1, colx1, colx2 + 1]
  if is_rel then do
    let relflags : List Int := [0, 0, (row_rel1 : Int), (row_rel2 : Int), (col_rel1 : Int), (col_rel2 : Int)]
    let ref3d := Ref3D.ofTuple (coords ++ relflags)
    let text ← rangename3drel bk ref3d none none true
    let value := if optype = 1 then some (XLValue.refs [ref3d]) else none
    return (stk ++ [.op { kind := oREL, value := value, rank := LEAF_RANK, text := text }],
            any_rel, any_err)
  else do
    let ref3d := Ref3D.ofTuple coords
    let text ← rangename3d bk ref3d
    let value := if optype = 1 then some (XLValue.refs [ref3d]) else none
    return (stk ++ [.op { kind := oREF, value := value, rank := LEAF_RANK, text := text }],
            any_rel, any_err)

/-- The `tAttr` handler (shared text by both walkers in the evaluator's
form): the Choose sub-variant recomputes its size from the embedded
count, the Sum sub-variant rewrites the top of stack as `SUM(...)`. -/
def eval_tAttr (data : List Nat) (pos : Nat) (stk : List StackElt) :
    Except PyErr (List StackElt × Int) := do
  let subop ← readU8 data (pos + 1)
  let nc ← readU16 data (pos + 2)
  if subop = 0x04 then return (stk, (nc : Int) * 2 + 6)
  else if subop = 0x10 then do
    if stk.length < 1 then throw .assertionError
    let ae ← pyIdx stk (-1)
    let t ← ae.getText
    let otext := "SUM(" ++ t ++ ")"
    return (stk.dropLast ++ [.op { kind := oNUM, value := none, rank := FUNC_RANK, text := otext }], 4)
  else return (stk, 4)

/-- The evaluator's `tStr` handler: variable-size inline string literal,
pushed with its value. -/
def eval_tStr (bv : Nat) (data : List Nat) (pos : Nat) (stk : List StackElt) :
    Except PyErr (List StackElt × Int) := do
  let (strg, newpos) ←
    if bv ≤ 70 then unpack_string_update_pos data (pos + 1)
    else unpack_unicode_update_pos data (pos + 1)
  let sz : Int := (newpos : Int) - (pos : Int)
  let text := "\"" ++ pyReplaceChar strg '"' "\"\"" ++ "\""
  return (stk ++ [.op { kind := oSTRG, value := some (.str strg), rank := LEAF_RANK, text := text }], sz)

/-- The `tErr`/`tBool`/`tInt`/`tNum` literal handler of the evaluator
(values kept; `tInt` coerces to float and renders with the float
`str`). -/
def eval_tLiteral (opcode : Nat) (data : List Nat) (pos : Nat) (stk : List StackElt) :
    Except PyErr (List StackElt) := do
  if opcode = 0x1C then do
    let v ← readU8 data (pos + 1)
    let et ← error_text_from_code v
    return stk ++ [.op { kind := oERR, value := some (.num (Flt.ofNat v)), rank := LEAF_RANK, text := "\"" ++ et ++ "\"" }]
  else if opcode = 0x1D then do
    let v ← readU8 data (pos + 1)
    let text ← if v = 0 then pure "FALSE" else if v = 1 then pure "TRUE" else throw PyErr.indexError
    return stk ++ [.op { kind := oBOOL, value := some (.num (Flt.ofNat v)), rank := LEAF_RANK, text := text }]
  else if opcode = 0x1E then do
    let v ← readU16 data (pos + 1)
    let q := Flt.ofNat v
    return stk ++ [.op { kind := oNUM, value := some (.num q), rank := LEAF_RANK, text := Flt.decStr q }]
  else do
    let q ← readF64 data (pos + 1)
    return stk ++ [.op { kind := oNUM, value := some (.num q), rank := LEAF_RANK, text := Flt.decStr q }]

/-- The token-walking loop of `evaluate_name_formula` (`while 0 <= pos
< fmlalen`).  The first fuel argument is the structural-recursion
bound; the loop advances `pos` by the (positive, checked) token size
each iteration, so a fuel of `fmlalen + 1` can never run out. -/
def evalLoop (evalName : EvalNameFn) (namex : Int) (blah : Bool) (level : Nat)
    (bv : Nat) (sztab : List Int) (data : List Nat) (fmlalen : Nat) :
    Nat → Nat → List StackElt → Bool → Bool → Bool → Book →
    Except PyErr (Book × List StackElt × Bool × Bool × Bool)
  | 0, _, _, _, _, _, _ => .error .fuelExhausted
  | fuel + 1, pos, stack, any_rel, any_err, any_external, bk =>
    if pos < fmlalen then do
      let op ← pyReadByte data pos
      let opcode := op % 32
      let optype := op / 32 % 4
      let opx := if ¬ optype = 0 then opcode + 32 else opcode
      let oname := onames.getD opx ""
      let sz := szAt sztab opx
      if sz = -2 then
        throw (.formulaError ("ERROR *** Unexpected token " ++ toString op ++ " (\""
          ++ oname ++ "\"); biff_version=" ++ toString bv))
      else if optype = 0 then do
        let (stack, sz) ←
          if opcode ≤ 0x02 then
            throw (.formulaError ("ERROR *** Token " ++ toString op ++ " (" ++ oname
              ++ ") found in NAME formula"))
          else if opcode ≤ 0x0E then do
            let s ← evaluate_do_binop opcode stack
            pure (s, sz)
          else if opcode = 0x0F then do
            let s ← eval_tIsect stack
            pure (s, sz)
          else if opcode = 0x10 then do
            let s ← eval_tList stack
            pure (s, sz)
          else if opcode = 0x11 then do
            let s ← eval_tRange stack
            pure (s, sz)
          else if opcode ≤ 0x14 then do
            let s ← evaluate_do_unaryop opcode oNUM stack
            pure (s, sz)
          else if opcode = 0x15 then pure (stack, sz)
          else if opcode = 0x16 then
            pure (stack ++ [.op { kind := oMSNG, value := none, rank := LEAF_RANK, text := "" }], sz)
          else if opcode = 0x17 then eval_tStr bv data pos stack
          else if opcode = 0x18 then
            if bv < 80 then throw PyErr.assertionError
            else throw (.formulaError "tExtended token not implemented")
          else if opcode = 0x19 then eval_tAttr data pos stack
          else if opcode ≤ 0x1B then
            if ¬ bv < 50 then throw PyErr.assertionError
            else throw (.formulaError "tSheet & tEndsheet tokens not implemented")
          else if opcode ≤ 0x1F then do
            let s ← eval_tLiteral opcode data pos stack
            pure (s, sz)
          else throw (.formulaError ("Unhandled opcode: " ++ toString opcode))
        if sz ≤ 0 then throw (.formulaError ("Size not set for opcode " ++ toString opcode))
        else
          evalLoop evalName namex blah level bv sztab data fmlalen fuel (pos + sz.toNat)
            stack any_rel any_err any_external bk
      else do
        let (bk, stack, any_rel, any_err) ←
          if opcode = 0x00 then pure (bk, stack ++ [.op unk_opnd], any_rel, any_err)
          else if opcode = 0x01 then do
            let s ← eval_tFunc bv data pos stack
            pure (bk, s, any_rel, any_err)
          else if opcode = 0x02 then do
            let s ← eval_tFuncVar bv data pos stack
            pure (bk, s, any_rel, any_err)
          else if opcode = 0x03 then eval_tName evalName bk data pos blah level stack any_rel any_err
          else if opcode = 0x04 then do
            let s ← eval_tRef bv data pos optype stack
            pure (bk, s, true, any_err)
          else if opcode = 0x05 then do
            let s ← eval_tArea bv data pos optype stack
            pure (bk, s, true, any_err)
          else if opcode = 0x06 then
            throw (.formulaError ("ERROR *** Token " ++ toString op ++ " (" ++ oname
              ++ ") found in NAME formula"))
          else if opcode = 0x09 then do
            let _ ← readU16 data (pos + 1)
            pure (bk, stack, any_rel, any_err)
          else if opcode = 0x0C ∨ opcode = 0x0D then
            throw (.formulaError ("ERROR *** Token " ++ toString op ++ " (" ++ oname
              ++ ") found in NAME formula"))
          else if opcode = 0x1A then do
            let (s, r, e) ← eval_tRef3d bk bv data pos optype stack any_rel any_err
            pure (bk, s, r, e)
          else if opcode = 0x1B then do
            let (s, r, e) ← eval_tArea3d bk bv data pos optype stack any_rel any_err
            pure (bk, s, r, e)
          else if opcode = 0x19 then
            eval_tNameX evalName bk bv data pos namex blah level stack any_rel any_err
          else if error_opcodes.contains opcode then
            pure (bk, stack ++ [.op error_opnd], any_rel, true)
          else pure (bk, stack, any_rel, true)
        if sz ≤ 0 then throw (.formulaError "Fatal: token size is not positive")
        else
          evalLoop evalName namex blah level bv sztab data fmlalen fuel (pos + sz.toNat)
            stack any_rel any_err any_external bk
    else .ok (bk, stack, any_rel, any_err, any_external)

/-- `evaluate_name_formula`: evaluate the formula attached to the
defined name at `namex` (in Python the aliased `nobj` and its index are
passed together; the state threading re-reads and writes back the
indexed slot).  Crossing the alarm level turns verbose tracing on for
this call and, through the propagated flag, for everything below it;
crossing the panic level raises `XLRDError`.  The first argument is
recursion fuel (an embedding artifact: the panic check bounds reachable
depth by 12, so any fuel of at least 13 behaves identically for calls
started at level 0). -/
def evaluate_name_formula : Nat → Book → Int → Bool → Nat → Except PyErr Book
  | 0, _, _, _, _ => .error .fuelExhausted
  | fuel + 1, bk, namex, blah, level => do
    let blah := effective_blah blah level
    let nobj ← pyIdx bk.name_obj_list namex
    let data := nobj.raw_formula
    let fmlalen := nobj.basic_formula_len
    let bv := bk.biff_version
    if level > STACK_PANIC_LEVEL then
      throw (.xlrdError "Excessive indirect references in NAME formula")
    else do
      let sztab ← szdict bv
      let stack0 := if fmlalen = 0 then [StackElt.op unk_opnd] else []
      let (bk, stack, any_rel, any_err, any_external) ←
        evalLoop (fun b n bl l => evaluate_name_formula fuel b n bl l) namex blah level
          bv sztab data fmlalen (fmlalen + 1) 0 stack0 false false false bk
      let nobj ← pyIdx bk.name_obj_list namex
      let result := if stack.length ≠ 1 then none else stack.head?
      let upd := { nobj with
                   stack := stack
                   result := result
                   any_rel := any_rel
                   any_err := any_err
                   any_external := any_external
                   evaluated := true }
      let lst ← pySet bk.name_obj_list namex upd
      return { bk with name_obj_list := lst }

/-! ## The decompiler (`decompile_formula`), token by token -/

/-- Inner `do_binop` of `decompile_formula`: text composition only, no
value computation. -/
def decomp_do_binop (opcd : Nat) (stk : List StackElt) : Except PyErr (List StackElt) := do
  if stk.length < 2 then throw .assertionError
  let (be, stk) ← pyPop stk
  let (ae, stk) ← pyPop stk
  match binop_rules opcd with
  | none => throw .keyError
  | some (_, result_kind, _, rank, sym) => do
    let aop ← ae.getOp
    let bop ← be.getOp
    let otext := parenWrap aop rank ++ sym ++ parenWrap bop rank
    return stk ++ [.op { kind := result_kind, value := none, rank := rank, text := otext }]

/-- Inner `do_unaryop` of `decompile_formula`. -/
def decomp_do_unaryop (opcode : Nat) (result_kind : Int) (stk : List StackElt) :
    Except PyErr (List StackElt) := do
  if stk.length < 1 then throw .assertionError
  let (ae, stk) ← pyPop stk
  let aop ← ae.getOp
  match unop_rules opcode with
  | none => throw .keyError
  | some (_, rank, sym1, sym2) => do
    let otext := sym1 ++ parenWrap aop rank ++ sym2
    return stk ++ [.op { kind := result_kind, value := none, rank := rank, text := otext }]

/-- The decompiler's `tIsect` handler (kind logic only). -/
def decomp_tIsect (stk : List StackElt) : Except PyErr (List StackElt) := do
  if stk.length < 2 then throw .assertionError
  let (be, stk) ← pyPop stk
  let (ae, stk) ← pyPop stk
  let aop ← ae.getOp
  let bop ← be.getOp
  let rank := 80
  let otext := parenWrap aop rank ++ " " ++ parenWrap bop rank
  let res0 : Operand := { kind := oREF, text := otext }
  let res :=
    if bop.kind = oERR ∨ aop.kind = oERR then { res0 with kind := oERR }
    else if bop.kind = oUNK ∨ aop.kind = oUNK then res0
    else if bop.kind = oREF ∧ aop.kind = oREF then res0
    else if bop.kind = oREL ∧ aop.kind = oREL then { res0 with kind := oREL }
    else res0
  return stk ++ [.op res]

/-- The decompiler's `tList` handler. -/
def decomp_tList (stk : List StackElt) : Except PyErr (List StackElt) := do
  if stk.length < 2 then throw .assertionError
  let (be, stk) ← pyPop stk
  let (ae, stk) ← pyPop stk
  let aop ← ae.getOp
  let bop ← be.getOp
  let rank := 80
  let otext := parenWrap aop rank ++ "," ++ parenWrap bop rank
  let res0 : Operand := { kind := oREF, value := none, rank := rank, text := otext }
  let res :=
    if bop.kind = oERR ∨ aop.kind = oERR then { res0 with kind := oERR }
    else if (bop.kind = oREF ∨ bop.kind = oREL) ∧ (aop.kind = oREF ∨ aop.kind = oREL) then
      if aop.kind = oREL ∨ bop.kind = oREL then { res0 with kind := oREL }
      else { res0 with kind := oREF }
    else res0
  return stk ++ [.op res]

/-- The decompiler's `tRange` handler: the error branch has the same
`res = oERR` slip as the evaluator's, pushing the bare integer kind
constant. -/
def decomp_tRange (stk : List StackElt) : Except PyErr (List StackElt) := do
  if stk.length < 2 then throw .assertionError
  let (be, stk) ← pyPop stk
  let (ae, stk) ← pyPop stk
  let aop ← ae.getOp
  let bop ← be.getOp
  let rank := 80
  let otext := parenWrap aop rank ++ ":" ++ parenWrap bop rank
  let res0 : Operand := { kind := oREF, value := none, rank := rank, text := otext }
  if bop.kind = oERR ∨ aop.kind = oERR then return stk ++ [.intObj oERR]
  else return stk ++ [.op res0]

/-- The `unexpected_opcode` diagnostic: print-only (the raise is
commented out in the source), but composing its message indexes
`FMLA_TYPEDESCR_MAP[fmlatype]`, a `KeyError` for an unrecognised
context tag. -/
def unexpected_opcode_check (fmlatype : Nat) : Except PyErr Unit :=
  match fmlaTypeDescr fmlatype with
  | some _ => .ok ()
  | none => .error .keyError

/-- The decompiler's `tExp`/`tTbl` handler: must be the sole token;
substitutes a placeholder description for the shared-formula target.
(`unpack` runs over the whole buffer, so the buffer length must equal
the format size exactly.) -/
def decomp_tExp (bv : Nat) (data : List Nat) (pos : Nat) (fmlalen : Nat) (sz : Int)
    (fmlatype : Nat) (stk : List StackElt) : Except PyErr (List StackElt) := do
  if ¬ (pos = 0 ∧ (fmlalen : Int) = sz ∧ stk = []) then throw .assertionError
  let (rowx, colx) ←
    if bv ≥ 30 then do
      if ¬ data.length = 5 then throw PyErr.structError
      let r ← readU16 data 1
      let c ← readU16 data 3
      pure (r, c)
    else do
      if ¬ data.length = 4 then throw PyErr.structError
      let r ← readU16 data 1
      let c ← readU8 data 3
      pure (r, c)
  let text := "SHARED FMLA at rowx=" ++ toString rowx ++ " colx=" ++ toString colx
  let stk := stk ++ [.op { kind := oUNK, value := none, rank := LEAF_RANK, text := text }]
  if fmlatype &&& (FMLA_TYPE_CELL ||| FMLA_TYPE_ARRAY) = 0 then do
    unexpected_opcode_check fmlatype
    pure stk
  else pure stk

/-- The decompiler's `tFunc` handler. -/
def decomp_tFunc (bv : Nat) (data : List Nat) (pos : Nat) (stk : List StackElt) :
    Except PyErr (List StackElt) := do
  let funcx ← if bv ≥ 40 then readU16 data (pos + 1) else readU8 data (pos + 1)
  match func_defs.lookup funcx with
  | none => return stk ++ [.op unk_opnd]
  | some (func_name, nargs, _) => do
    if stk.length < nargs then throw .assertionError
    if ¬ nargs = 0 then do
      let argtext ← joinTexts (pyTailSlice stk nargs)
      let otext := func_name ++ "(" ++ argtext ++ ")"
      return pyDelTail stk nargs ++ [.op { kind := oUNK, value := none, rank := FUNC_RANK, text := otext }]
    else
      return stk ++ [.op { kind := oUNK, value := none, rank := FUNC_RANK, text := func_name ++ "()" }]

/-- The decompiler's `tFuncVar` handler: the add-in dispatch id 255
consumes the call target's name from the stack (its effective argument
count can become `-1`); other ids are looked up by the raw id including
the macro bit.  The argument-text slice and deletion are guarded by
`nargs > 0` here, unlike the evaluator. -/
def decomp_tFuncVar (bv : Nat) (data : List Nat) (pos : Nat) (stk : List StackElt) :
    Except PyErr (List StackElt) := do
  let nargsByte ← readU8 data (pos + 1)
  let funcxRaw ← if bv ≥ 40 then readU16 data (pos + 2) else readU8 data (pos + 2)
  let nargs0 : Int := nargsByte % 128
  let funcx := funcxRaw % 32768
  let (func_attrs, nargs, stk) ←
    if funcx = 255 then
      if stk.length > 0 then do
        let nargs := nargs0 - 1
        let te ← pyIdx stk (-1)
        let t ← te.getText
        pure (some (t, nargs, nargs), nargs, stk.dropLast)
      else pure (some ("CALL_ADDIN", (1 : Int), (30 : Int)), nargs0, stk)
    else
      pure ((func_defs.lookup funcxRaw).map (fun (nm, mn, mx) => (nm, (mn : Int), (mx : Int))),
            nargs0, stk)
  match func_attrs with
  | none => return stk ++ [.op unk_opnd]
  | some (func_name, minargs, maxargs) => do
    if ¬ (minargs ≤ nargs ∧ nargs ≤ maxargs) then throw .assertionError
    if (stk.length : Int) < nargs then throw .assertionError
    let argtext ← if nargs > 0 then joinTexts (pyTailSlice stk nargs.toNat) else pure ""
    let otext := func_name ++ "(" ++ argtext ++ ")"
    let stk := if nargs > 0 then pyDelTail stk nargs.toNat else stk
    return stk ++ [.op { kind := oUNK, value := none, rank := FUNC_RANK, text := otext }]

/-- The decompiler's `tName` handler: text only, no recursive
evaluation. -/
def decomp_tName (bk : Book) (data : List Nat) (pos : Nat) (stk : List StackElt) :
    Except PyErr (List StackElt) := do
  let w ← readU16 data (pos + 1)
  let tgtnamex : Int := (w : Int) - 1
  let tgtobj ← pyIdx bk.name_obj_list tgtnamex
  let otext ←
    if tgtobj.scope = -1 then pure tgtobj.name
    else do
      let sn ← pyIdx bk.sheet_names tgtobj.scope
      pure (sn ++ "!" ++ tgtobj.name)
  return stk ++ [.op { kind := oUNK, value := none, rank := LEAF_RANK, text := otext }]

/-- The decompiler's `tRef` handler (and, with delta decoding forced,
its `tRefN` handler): renders the cell name against the anchor. -/
def decomp_tRef (bv : Nat) (data : List Nat) (pos : Nat) (reldelta : Bool)
    (browx bcolx : Option Int) (r1c1 : Bool) (stk : List StackElt) :
    Except PyErr (List StackElt) := do
  let (rowx, colx, row_rel, col_rel) ← get_cell_addr data (pos + 1) bv reldelta browx bcolx
  let okind := if ¬ row_rel = 0 ∨ ¬ col_rel = 0 then oREL else oREF
  let otext ← cellnamerel rowx colx row_rel col_rel browx bcolx r1c1
  return stk ++ [.op { kind := okind, value := none, rank := LEAF_RANK, text := otext }]

/-- The decompiler's `tArea` handler (and its `tAreaN` handler). -/
def decomp_tArea (bv : Nat) (data : List Nat) (pos : Nat) (reldelta : Bool)
    (browx bcolx : Option Int) (r1c1 : Bool) (stk : List StackElt) :
    Except PyErr (List StackElt) := do
  let (res1, res2) ← get_cell_range_addr data (pos + 1) bv reldelta browx bcolx
  let (rowx1, colx1, row_rel1, col_rel1) := res1
  let (rowx2, colx2, row_rel2, col_rel2) := res2
  let coords := (rowx1, rowx2 + 1, colx1, colx2 + 1)
  let relflags := (row_rel1, row_rel2, col_rel1, col_rel2)
  let okind :=
    if row_rel1 + row_rel2 + col_rel1 + col_rel2 ≠ 0 then oREL else oREF
  let otext ← rangename2drel coords relflags browx bcolx r1c1
  return stk ++ [.op { kind := okind, value := none, rank := LEAF_RANK, text := otext }]

/-- The decompiler's `tRef3d` handler (no value tracking; the anchor
and notation flag reach the renderer). -/
def decomp_tRef3d (bk : Book) (bv : Nat) (data : List Nat) (pos : Nat) (reldelta : Bool)
    (browx bcolx : Option Int) (r1c1 : Bool) (stk : List StackElt) (any_rel any_err : Bool) :
    Except PyErr (List StackElt × Bool × Bool) := do
  let (res, shxs) ←
    if bv ≥ 80 then do
      let r ← get_cell_addr data (pos + 3) bv reldelta browx bcolx
      let refx ← readU16 data (pos + 1)
      let s ← get_externsheet_local_range bk refx
      pure (r, s)
    else do
      let r ← get_cell_addr data (pos + 15) bv reldelta browx bcolx
      let raw_extshtx ← readI16 data (pos + 1)
      let raw_shx1 ← readI16 data (pos + 11)
      let raw_shx2 ← readI16 data (pos + 13)
      pure (r, get_externsheet_local_range_b57 bk raw_extshtx raw_shx1 raw_shx2)
  let (rowx, colx, row_rel, col_rel) := res
  let (shx1, shx2) := shxs
  let is_rel : Bool := decide (¬ row_rel = 0) || decide (¬ col_rel = 0)
  let any_rel := any_rel || is_rel
  let coords : List Int := [shx1, shx2 + 1, rowx, rowx + 1, colx, colx + 1]
  let any_err := any_err || decide (shx1 < -1)
  if is_rel then do
    let relflags : List Int := [0, 0, (row_rel : Int), (row_rel : Int), (col_rel : Int), (col_rel : Int)]
    let ref3d := Ref3D.ofTuple (coords ++ relflags)
    let text ← rangename3drel bk ref3d browx bcolx r1c1
    return (stk ++ [.op { kind := oREL, value := none, rank := LEAF_RANK, text := text }],
            any_rel, any_err)
  else do
    let ref3d := Ref3D.ofTuple coords
    let text ← rangename3d bk ref3d
    return (stk ++ [.op { kind := oREF, value := none, rank := LEAF_RANK, text := text }],
            any_rel, any_err)

/-- The decompiler's `tArea3d` handler (the range address is decoded
without the anchor, exactly as in the source, which omits `browx`/
`bcolx` there). -/
def decomp_tArea3d (bk : Book) (bv : Nat) (data : List Nat) (pos : Nat) (reldelta : Bool)
    (browx bcolx : Option Int) (r1c1 : Bool) (stk : List StackElt) (any_rel any_err : Bool) :
    Except PyErr (List StackElt × Bool × Bool) := do
  let (res12, shxs) ←
    if bv ≥ 80 then do
      let r ← get_cell_range_addr data (pos + 3) bv reldelta none none
      let refx ← readU16 data (pos + 1)
      let s ← get_externsheet_local_range bk refx
      pure (r, s)
    else do
      let r ← get_cell_range_addr data (pos + 15) bv reldelta none none
      let raw_extshtx ← readI16 data (pos + 1)
      let raw_shx1 ← readI16 data (pos + 11)
      let raw_shx2 ← readI16 data (pos + 13)
      pure (r, get_externsheet_local_range_b57 bk raw_extshtx raw_shx1 raw_shx2)
  let (shx1, shx2) := shxs
  let any_err := any_err || decide (shx1 < -1)
  let (res1, res2) := res12
  let (rowx1, colx1, row_rel1, col_rel1) := res1
  let (rowx2, colx2, row_rel2, col_rel2) := res2
  let is_rel : Bool := decide (¬ row_rel1 = 0) || decide (¬ col_rel1 = 0)
      || decide (¬ row_rel2 = 0) || decide (¬ col_rel2 = 0)
  let any_rel := any_rel || is_rel
  let coords : List Int := [shx1, shx2 + 1, rowx1, rowx2 + 1, colx1, colx2 + 1]
  if is_rel then do
    let relflags : List Int := [0, 0, (row_rel1 : Int), (row_rel2 : Int), (col_rel1 : Int), (col_rel2 : Int)]
    let ref3d := Ref3D.ofTuple (coords ++ relflags)
    let text ← rangename3drel bk ref3d browx bcolx r1c1
    return (stk ++ [.op { kind := oREL, value := none, rank := LEAF_RANK, text := text }],
            any_rel, any_err)
  else do
    let ref3d := Ref3D.ofTuple coords
    let text ← rangename3d bk ref3d
    return (stk ++ [.op { kind := oREF, value := none, rank := LEAF_RANK, text := text }],
            any_rel, any_err)

/-- The decompiler's `tNameX` handler, with the add-in-function-name
branch.  One modelling note: on the `dodgy` path (older generations,
raw index 0) the source reads `shx1` without having assigned it in this
iteration — Python would raise `UnboundLocalError` unless a stale value
leaked from an earlier token of the same formula; the embedding treats
`dodgy` as routing straight to the unresolved-name branch, which is the
behaviour whenever any earlier 3-D token left `shx1` below -1 and the
only disciplined reading of that slip. -/
def decomp_tNameX (bk : Book) (bv : Nat) (data : List Nat) (pos : Nat)
    (stk : List StackElt) : Except PyErr (List StackElt) := do
  let (origrefx, refx, tgtnamex, dodgy) ←
    if bv ≥ 80 then do
      let r ← readU16 data (pos + 1)
      let t ← readU16 data (pos + 3)
      pure ((r : Int), (r : Int), (t : Int) - 1, false)
    else do
      let r ← readI16 data (pos + 1)
      let t ← readU16 data (pos + 11)
      if r > 0 then pure (r, r - 1, (t : Int) - 1, false)
      else if r < 0 then pure (r, -r - 1, (t : Int) - 1, false)
      else pure (r, r, (t : Int) - 1, true)
  let shx ←
    if ¬ dodgy then
      if bv ≥ 80 then do
        let p ← get_externsheet_local_range bk refx.toNat
        pure (some p)
      else if origrefx > 0 then pure (some ((-4 : Int), (-4 : Int)))
      else do
        let exty ← pyIdx bk.externsheet_type_b57 refx
        pure (some (if exty = 4 then ((-1 : Int), (-1 : Int)) else (-666, -666)))
    else pure none
  let shx1ok := match shx with | some (s1, _) => s1 | none => 0
  if shx1ok = -5 ∧ ¬ dodgy then do
    let ovalue ← pyIdx bk.addin_func_names tgtnamex
    let otext := "\"" ++ pyReplaceChar ovalue '"' "\"\"" ++ "\""
    return stk ++ [.op { kind := oSTRG, value := some (.str ovalue), rank := LEAF_RANK, text := otext }]
  else if dodgy ∨ shx1ok < -1 then
    let otext := "<<Name #" ++ toString tgtnamex ++ " in external(?) file #"
        ++ toString origrefx ++ ">>"
    return stk ++ [.op { kind := oUNK, value := none, rank := LEAF_RANK, text := otext }]
  else do
    let tgtobj ← pyIdx bk.name_obj_list tgtnamex
    let otext ←
      if tgtobj.scope = -1 then pure tgtobj.name
      else do
        let sn ← pyIdx bk.sheet_names tgtobj.scope
        pure (sn ++ "!" ++ tgtobj.name)
    return stk ++ [.op { kind := oUNK, value := none, rank := LEAF_RANK, text := otext }]

/-- The decompiler's `tStr` handler: text only, no value. -/
def decomp_tStr (bv : Nat) (data : List Nat) (pos : Nat) (stk : List StackElt) :
    Except PyErr (List StackElt × Int) := do
  let (strg, newpos) ←
    if bv ≤ 70 then unpack_string_update_pos data (pos + 1)
    else unpack_unicode_update_pos data (pos + 1)
  let sz : Int := (newpos : Int) - (pos : Int)
  let text := "\"" ++ pyReplaceChar strg '"' "\"\"" ++ "\""
  return (stk ++ [.op { kind := oSTRG, value := none, rank := LEAF_RANK, text := text }], sz)

/-- The decompiler's literal handler: kinds and text as in the
evaluator, values left absent. -/
def decomp_tLiteral (opcode : Nat) (data : List Nat) (pos : Nat) (stk : List StackElt) :
    Except PyErr (List StackElt) := do
  if opcode = 0x1C then do
    let v ← readU8 data (pos + 1)
    let et ← error_text_from_code v
    return stk ++ [.op { kind := oERR, value := none, rank := LEAF_RANK, text := "\"" ++ et ++ "\"" }]
  else if opcode = 0x1D then do
    let v ← readU8 data (pos + 1)
    let text ← if v = 0 then pure "FALSE" else if v = 1 then pure "TRUE" else throw PyErr.indexError
    return stk ++ [.op { kind := oBOOL, value := none, rank := LEAF_RANK, text := text }]
  else if opcode = 0x1E then do
    let v ← readU16 data (pos + 1)
    return stk ++ [.op { kind := oNUM, value := none, rank := LEAF_RANK, text := Flt.decStr (Flt.ofNat v) }]
  else do
    let q ← readF64 data (pos + 1)
    return stk ++ [.op { kind := oNUM, value := none, rank := LEAF_RANK, text := Flt.decStr q }]

/-- The token-walking loop of `decompile_formula`.  Same fuel discipline
as `evalLoop`; no recursion (the decompiler never evaluates a referenced
name). -/
def decompLoop (bk : Book) (fmlatype : Nat) (reldelta : Bool) (browx bcolx : Option Int)
    (r1c1 : Bool) (bv : Nat) (sztab : List Int) (data : List Nat) (fmlalen : Nat) :
    Nat → Nat → List StackElt → Bool → Bool →
    Except PyErr (List StackElt × Bool × Bool)
  | 0, _, _, _, _ => .error .fuelExhausted
  | fuel + 1, pos, stack, any_rel, any_err =>
    if pos < fmlalen then do
      let op ← pyReadByte data pos
      let opcode := op % 32
      let optype := op / 32 % 4
      let opx := if ¬ optype = 0 then opcode + 32 else opcode
      let oname := onames.getD opx ""
      let sz := szAt sztab opx
      if sz = -2 then
        throw (.formulaError ("ERROR *** Unexpected token " ++ toString op ++ " (\""
          ++ oname ++ "\"); biff_version=" ++ toString bv))
      else do
        if tokenNotAllowed opx &&& fmlatype ≠ 0 then unexpected_opcode_check fmlatype
        if optype = 0 then do
          let (stack, sz) ←
            if opcode ≤ 0x01 then do
              let s ← decomp_tExp bv data pos fmlalen sz fmlatype stack
              pure (s, sz)
            else if opcode = 0x02 then
              throw (.formulaError ("Unhandled opcode: " ++ toString opcode))
            else if opcode ≤ 0x0E then do
              let s ← decomp_do_binop opcode stack
              pure (s, sz)
            else if opcode = 0x0F then do
              let s ← decomp_tIsect stack
              pure (s, sz)
            else if opcode = 0x10 then do
              let s ← decomp_tList stack
              pure (s, sz)
            else if opcode = 0x11 then do
              let s ← decomp_tRange stack
              pure (s, sz)
            else if opcode ≤ 0x14 then do
              let s ← decomp_do_unaryop opcode oNUM stack
              pure (s, sz)
            else if opcode = 0x15 then pure (stack, sz)
            else if opcode = 0x16 then
              pure (stack ++ [.op { kind := oMSNG, value := none, rank := LEAF_RANK, text := "" }], sz)
            else if opcode = 0x17 then decomp_tStr bv data pos stack
            else if opcode = 0x18 then
              if bv < 80 then throw PyErr.assertionError
              else throw (.formulaError "tExtended token not implemented")
            else if opcode = 0x19 then eval_tAttr data pos stack
            else if opcode ≤ 0x1B then
              if ¬ bv < 50 then throw PyErr.assertionError
              else throw (.formulaError "tSheet & tEndsheet tokens not implemented")
            else if opcode ≤ 0x1F then do
              let s ← decomp_tLiteral opcode data pos stack
              pure (s, sz)
            else throw (.formulaError ("Unhandled opcode: " ++ toString opcode))
          if sz ≤ 0 then throw (.formulaError ("Size not set for opcode " ++ toString opcode))
          else
            decompLoop bk fmlatype reldelta browx bcolx r1c1 bv sztab data fmlalen fuel
              (pos + sz.toNat) stack any_rel any_err
        else do
          let (stack, any_rel, any_err) ←
            if opcode = 0x00 then pure (stack ++ [.op unk_opnd], any_rel, any_err)
            else if opcode = 0x01 then do
              let s ← decomp_tFunc bv data pos stack
              pure (s, any_rel, any_err)
            else if opcode = 0x02 then do
              let s ← decomp_tFuncVar bv data pos stack
              pure (s, any_rel, any_err)
            else if opcode = 0x03 then do
              let s ← decomp_tName bk data pos stack
              pure (s, any_rel, any_err)
            else if opcode = 0x04 then do
              let s ← decomp_tRef bv data pos reldelta browx bcolx r1c1 stack
              pure (s, any_rel, any_err)
            else if opcode = 0x05 then do
              let s ← decomp_tArea bv data pos reldelta browx bcolx r1c1 stack
              pure (s, any_rel, any_err)
            else if opcode = 0x06 then pure (stack, any_rel, any_err)
            else if opcode = 0x09 then do
              let _ ← readU16 data (pos + 1)
              pure (stack, any_rel, any_err)
            else if opcode = 0x0C then do
              let s ← decomp_tRef bv data pos reldelta browx bcolx r1c1 stack
              pure (s, true, any_err)
            else if opcode = 0x0D then do
              let s ← decomp_tArea bv data pos reldelta browx bcolx r1c1 stack
              pure (s, any_rel, any_err)
            else if opcode = 0x1A then do
              let (s, r, e) ← decomp_tRef3d bk bv data pos reldelta browx bcolx r1c1 stack any_rel any_err
              pure (s, r, e)
            else if opcode = 0x1B then do
              let (s, r, e) ← decomp_tArea3d bk bv data pos reldelta browx bcolx r1c1 stack any_rel any_err
              pure (s, r, e)
            else if opcode = 0x19 then do
              let s ← decomp_tNameX bk bv data pos stack
              pure (s, any_rel, any_err)
            else if error_opcodes.contains opcode then
              pure (stack ++ [.op error_opnd], any_rel, true)
            else pure (stack, any_rel, true)
          if sz ≤ 0 then throw (.formulaError "Fatal: token size is not positive")
          else
            decompLoop bk fmlatype reldelta browx bcolx r1c1 bv sztab data fmlalen fuel
              (pos + sz.toNat) stack any_rel any_err
    else .ok (stack, any_rel, any_err)

/-- `decompile_formula`: walk the token stream and reconstruct the
formula's text.  Termination rule of the source: exactly one element on
the stack yields its `text` (`AttributeError` if that element is the
bare int of the `tRange` slip); any other depth yields Python `None`,
modelled as `none`. -/
def decompile_formula (bk : Book) (fmla : List Nat) (fmlalen : Nat) (fmlatype : Nat)
    (browx bcolx : Option Int) (blah : Bool) (level : Nat) (r1c1 : Bool) :
    Except PyErr (Option String) := do
  let _ := effective_blah blah level
  let reldelta := fmlatype = FMLA_TYPE_SHARED ∨ fmlatype = FMLA_TYPE_NAME
      ∨ fmlatype = FMLA_TYPE_COND_FMT ∨ fmlatype = FMLA_TYPE_DATA_VAL
  if level > STACK_PANIC_LEVEL then
    throw (.xlrdError "Excessive indirect references in formula")
  else do
    let sztab ← szdict bk.biff_version
    let stack0 := if fmlalen = 0 then [StackElt.op unk_opnd] else []
    let (stack, _, _) ←
      decompLoop bk fmlatype (decide reldelta) browx bcolx r1c1 bk.biff_version sztab fmla
        fmlalen (fmlalen + 1) 0 stack0 false false
    if stack.length ≠ 1 then return none
    else do
      let t ← (stack.headD (.intObj 0)).getText
      return (some t)

/-! ## Concrete workbooks and projections used by the claim theorems -/

/-- A one-name workbook whose name carries the given token bytes. -/
def oneNameBook (dat : List Nat) : Book :=
  { name_obj_list := [{ name := "N", raw_formula := dat, basic_formula_len := dat.length }] }

/-- Shape of a stack element: is it a real `Operand` (with its kind), or
a bare int (with its value)? -/
def stackShape : StackElt → Bool × Int
  | .op o => (true, o.kind)
  | .intObj n => (false, n)

/-- Project an evaluator run to the cached stack shape of name `i`. -/
def nameStackShape (r : Except PyErr Book) (i : Nat) : Except PyErr (List (Bool × Int)) :=
  r.map fun b => ((b.name_obj_list.getD i {}).stack.map stackShape)

/-- Project an evaluator run to the `(kind, value)` of the folded result
operand of name `i` (when it is a real operand). -/
def nameResultKV (r : Except PyErr Book) (i : Nat) :
    Except PyErr (Option (Int × Option XLValue)) :=
  r.map fun b =>
    match (b.name_obj_list.getD i {}).result with
    | some (.op o) => some (o.kind, o.value)
    | _ => none

/-- Token stream of `#NULL! #NULL! tRange` — two error literals
combined by the range operator. -/
def rangeErrBytes : List Nat := [0x1C, 0, 0x1C, 0, 0x11]

/-- The same two error literals combined by the intersection
operator. -/
def isectErrBytes : List Nat := [0x1C, 0, 0x1C, 0, 0x0F]

/-- ... and by the list operator. -/
def listErrBytes : List Nat := [0x1C, 0, 0x1C, 0, 0x10]

/-- C3: the `tRange` error branches of both walkers push the bare
integer `oERR` (4) instead of an Error-kind `Operand`: evaluating
`#NULL!:#NULL!` leaves the Python int 4 as the name's cached stack (and
result), and decompiling the same stream dies with `AttributeError`
when the epilogue asks the int for its `text`; the sibling `tIsect` and
`tList` branches push real Error-kind operands on the same input. -/
theorem tRange_error_branch_pushes_bare_int :
    nameStackShape (evaluate_name_formula 20 (oneNameBook rangeErrBytes) 0 false 0) 0
      = .ok [(false, 4)]
    ∧ decompile_formula (oneNameBook rangeErrBytes) rangeErrBytes 5 FMLA_TYPE_NAME
        none none false 0 false = .error .attributeError
    ∧ nameStackShape (evaluate_name_formula 20 (oneNameBook isectErrBytes) 0 false 0) 0
      = .ok [(true, oERR)]
    ∧ nameStackShape (evaluate_name_formula 20 (oneNameBook listErrBytes) 0 false 0) 0
      = .ok [(true, oERR)] := by
  refine ⟨by decide, by decide, by decide, by decide⟩

/-- Token stream of `"1">9` (string literal, int literal, greater-than). -/
def strGtNumBytes : List Nat := [0x17, 1, 0, 0x31, 0x1E, 9, 0, 0x0D]

/-- Token stream of `"3"+4`. -/
def strPlusNumBytes : List Nat := [0x17, 1, 0, 0x33, 0x1E, 4, 0, 0x03]

/-- Token stream of `"1"=9`. -/
def strEqNumBytes : List Nat := [0x17, 1, 0, 0x31, 0x1E, 9, 0, 0x0B]

/-- C4 counterexample: the tokens for `"1">9` do not fold to Boolean
false — the comparison applies no coercion, so Python 3 raises
`TypeError` for the string-versus-number ordering and the whole
evaluation aborts. -/
theorem cmp_str_num_raises :
    evaluate_name_formula 20 (oneNameBook strGtNumBytes) 0 false 0 = .error .typeError := by
  decide

/-- C4 (amended): arithmetic coerces a String operand through float
parsing (`"3"+4` folds to Number 7); comparison applies no coercion, so
the equality `"1"=9` folds to Boolean false (unequal types), while the
ordered comparison `"1">9` raises `TypeError` instead of following
Excel's strings-after-numbers rule. -/
theorem literal_coercion_rules :
    nameResultKV (evaluate_name_formula 20 (oneNameBook strPlusNumBytes) 0 false 0) 0
      = .ok (some (oNUM, some (.num (Flt.ofInt 7))))
    ∧ evaluate_name_formula 20 (oneNameBook strGtNumBytes) 0 false 0 = .error .typeError
    ∧ nameResultKV (evaluate_name_formula 20 (oneNameBook strEqNumBytes) 0 false 0) 0
      = .ok (some (oBOOL, some (.num (Flt.ofInt 0)))) := by
  refine ⟨by decide, by decide, by decide⟩

/-! ## C7: the name-to-name recursion guard -/

/-- Link `i` of a synthetic name chain: a `tName` token referencing the
next name (1-based on the wire). -/
def chainLink (i : Nat) : NameObject :=
  { name := "C" ++ toString i
    raw_formula := [0x23, (i + 2) % 256, (i + 2) / 256, 0, 0]
    basic_formula_len := 5 }

/-- A workbook whose `n` names form a chain: names `0 .. n-2` each
reference the next, the last holds an integer literal.  Evaluating name
0 evaluates name `k` at recursion level `k`. -/
def chainBook (n : Nat) : Book :=
  { name_obj_list := (List.range (n - 1)).map chainLink ++
      [{ name := "LAST", raw_formula := [0x1E, 1, 0], basic_formula_len := 3 }] }

/-- C7 counterexample: a chain of exactly the alarm threshold (5
indirections; the deepest call runs at level 5) evaluates successfully,
but verbose tracing is NOT enabled at level 5 — the switch
`effective_blah` fires only strictly beyond the alarm level, i.e. from
level 6 on. -/
theorem alarm_level_chain_no_tracing :
    (evaluate_name_formula 40 (chainBook 6) 0 false 0).isOk = true
    ∧ effective_blah false 5 = false
    ∧ effective_blah false 6 = true := by
  refine ⟨by decide, by decide, by decide⟩

/-- C7 (amended): any call whose recursion level exceeds the panic
threshold (10) raises the excessive-indirection error before touching
the token stream, so a 12-name chain (deepest level 11) aborts with
that error while an 11-name chain (deepest level 10) completes;
verbose tracing switches on exactly for levels strictly above the
alarm threshold (5), so a 5-level chain completes with tracing still
off. -/
theorem name_recursion_guard :
    (∀ (fuel : Nat) (bk : Book) (namex : Int) (blah : Bool) (level : Nat)
      (nobj : NameObject),
      pyIdx bk.name_obj_list namex = .ok nobj →
      level > STACK_PANIC_LEVEL →
      evaluate_name_formula (fuel + 1) bk namex blah level
        = .error (.xlrdError "Excessive indirect references in NAME formula"))
    ∧ (∀ (blah : Bool) (level : Nat),
        effective_blah blah level = (blah || decide (level ≥ STACK_ALARM_LEVEL + 1)))
    ∧ evaluate_name_formula 40 (chainBook 12) 0 false 0
        = .error (.xlrdError "Excessive indirect references in NAME formula")
    ∧ (evaluate_name_formula 40 (chainBook 11) 0 false 0).isOk = true
    ∧ effective_blah false 5 = false := by
  refine ⟨?_, ?_, by decide, by decide, by decide⟩
  · intro fuel bk namex blah level nobj hn hl
    simp only [evaluate_name_formula, bind, Except.bind, hn]
    simp [hl]
    rfl
  · intro blah level
    simp [effective_blah, Nat.succ_le_iff]

/-- C7 witness: the panic clause applied at a concrete over-deep call
(level 11 on a two-name book). -/
theorem name_recursion_guard_witness :
    evaluate_name_formula 3 (chainBook 2) 0 false 11
      = .error (.xlrdError "Excessive indirect references in NAME formula") :=
  name_recursion_guard.1 2 (chainBook 2) 0 false 11 (chainLink 0) (by decide) (by decide)

/-! ## C8: layout equivalence of the two address decoders -/

/-- C8: for a logical cell address with both relative flags set, under
anchor-subtraction (non-`reldelta`) mode, decoding the newer layout
(flags in bits 14-15 of the column word) and decoding the older layout
(flags relocated to bits 14-15 of the row word, row masked to 14 bits)
produce the same delta-adjusted `(row, col, row_rel, col_rel)`
quadruple for identical logical content. -/
theorem address_layout_equivalence (r c : Nat) (br bc : Int)
    (hr : r < 16384) (hc : c < 256) :
    adjust_cell_addr_biff8 r (0xC000 + c) false (some br) (some bc)
      = adjust_cell_addr_biff_le7 (0xC000 + r) c false (some br) (some bc)
    ∧ adjust_cell_addr_biff8 r (0xC000 + c) false (some br) (some bc)
      = .ok ((r : Int) - br, (c : Int) - bc, 1, 1) := by
  have h1 : (49152 + c) / 32768 % 2 = 1 := by omega
  have h2 : (49152 + c) / 16384 % 2 = 1 := by omega
  have h3 : (49152 + c) % 256 = c := by omega
  have h4 : (49152 + r) / 32768 % 2 = 1 := by omega
  have h5 : (49152 + r) / 16384 % 2 = 1 := by omega
  have h6 : (49152 + r) % 16384 = r := by omega
  constructor
  · simp [adjust_cell_addr_biff8, adjust_cell_addr_biff_le7, h1, h2, h3, h4, h5, h6,
      bind, Except.bind]
    omega
  · simp [adjust_cell_addr_biff8, h1, h2, h3, bind, Except.bind]
    omega

/-- C8 witness: the equivalence at the concrete address (row 5, column
7, anchor (2, 3)). -/
theorem address_layout_equivalence_witness :
    adjust_cell_addr_biff8 5 (0xC000 + 7) false (some 2) (some 3)
      = adjust_cell_addr_biff_le7 (0xC000 + 5) 7 false (some 2) (some 3)
    ∧ adjust_cell_addr_biff8 5 (0xC000 + 7) false (some 2) (some 3)
      = .ok ((5 : Int) - 2, (7 : Int) - 3, 1, 1) :=
  address_layout_equivalence 5 7 2 3 (by decide) (by decide)

/-! ## C6: cross-sheet resolution sentinels -/

/-- The documented negative sentinel pairs of cross-sheet
resolution. -/
def isSentinelPair (p : Int × Int) : Prop :=
  p = (-1, -1) ∨ p = (-2, -2) ∨ p = (-3, -3) ∨ p = (-4, -4) ∨ p = (-5, -5)
  ∨ p = (-101, -101) ∨ p = (-102, -102) ∨ p = (-103, -103)

instance (p : Int × Int) : Decidable (isSentinelPair p) := by
  unfold isSentinelPair
  infer_instance

/-- A workbook whose externsheet table records an add-ins entry with
sheet words that are not the 0xFFFE markers. -/
def badAddinBook : Book :=
  { supbook_addins_inx := some 0, externsheet_info := [(0, 1, 1)] }

/-- C6 counterexample: resolution is not raise-free as claimed — an
externsheet entry filed under the add-in supbook whose sheet words are
not 0xFFFE fails the source's `assert` and raises `AssertionError`. -/
theorem externsheet_addin_assert_raises :
    get_externsheet_local_range badAddinBook 0 = .error .assertionError := by
  decide

/-- C6 (amended): provided every externsheet entry recorded under the
add-in supbook carries the 0xFFFE markers (the shape the workbook
loader writes), `get_externsheet_local_range` always returns a pair —
either a valid local span `0 ≤ first ≤ last` or one of the documented
negative sentinels — and never raises; `get_externsheet_local_range_b57`
is total and needs no proviso. -/
theorem externsheet_resolution (bk : Book) (refx : Nat) (raw f l : Int)
    (hwf : ∀ e ∈ bk.externsheet_info, bk.supbook_addins_inx = some e.1 →
           e.2.1 = 0xFFFE ∧ e.2.2 = 0xFFFE) :
    (∃ p, get_externsheet_local_range bk refx = .ok p
        ∧ ((0 ≤ p.1 ∧ p.1 ≤ p.2) ∨ isSentinelPair p))
    ∧ ((0 ≤ (get_externsheet_local_range_b57 bk raw f l).1
          ∧ (get_externsheet_local_range_b57 bk raw f l).1
            ≤ (get_externsheet_local_range_b57 bk raw f l).2)
        ∨ isSentinelPair (get_externsheet_local_range_b57 bk raw f l)) := by
  constructor
  · simp only [get_externsheet_local_range]
    cases hg : bk.externsheet_info.get? refx with
    | none => exact ⟨(-101, -101), rfl, Or.inr (by simp [isSentinelPair])⟩
    | some e =>
      obtain ⟨a, b, c⟩ := e
      have hmem : (a, b, c) ∈ bk.externsheet_info := List.get?_mem hg
      dsimp only
      by_cases ha : bk.supbook_addins_inx = some a
      · rw [if_pos ha]
        have hbc := hwf _ hmem ha
        rw [if_pos ⟨hbc.1, hbc.2⟩]
        exact ⟨(-5, -5), rfl, Or.inr (by simp [isSentinelPair])⟩
      · rw [if_neg ha]
        by_cases hloc : bk.supbook_locals_inx = some a
        case neg =>
          rw [if_pos hloc]
          exact ⟨(-4, -4), rfl, Or.inr (by simp [isSentinelPair])⟩
        rw [if_neg (not_not_intro hloc)]
        by_cases h2 : b = 0xFFFE ∧ c = 0xFFFE
        · rw [if_pos h2]
          exact ⟨(-1, -1), rfl, Or.inr (by simp [isSentinelPair])⟩
        · rw [if_neg h2]
          by_cases h3 : b = 0xFFFF ∧ c = 0xFFFF
          · rw [if_pos h3]
            exact ⟨(-2, -2), rfl, Or.inr (by simp [isSentinelPair])⟩
          · rw [if_neg h3]
            by_cases h4 : ¬ (0 ≤ b ∧ b ≤ c ∧ c < (bk.all_sheets_map.length : Int))
            · rw [if_pos h4]
              exact ⟨(-102, -102), rfl, Or.inr (by simp [isSentinelPair])⟩
            · rw [if_neg h4]
              by_cases h5 : ¬ (0 ≤ bk.all_sheets_map.getD b.toNat 0
                  ∧ bk.all_sheets_map.getD b.toNat 0 ≤ bk.all_sheets_map.getD c.toNat 0)
              · rw [if_pos h5]
                exact ⟨(-3, -3), rfl, Or.inr (by simp [isSentinelPair])⟩
              · rw [if_neg h5]
                push_neg at h5
                exact ⟨_, rfl, Or.inl ⟨h5.1, h5.2⟩⟩
  · simp only [get_externsheet_local_range_b57]
    by_cases h1 : raw > 0
    · rw [if_pos h1]
      exact Or.inr (by simp [isSentinelPair])
    · rw [if_neg h1]
      by_cases h2 : f = -1 ∧ l = -1
      · rw [if_pos h2]
        exact Or.inr (by simp [isSentinelPair])
      · rw [if_neg h2]
        by_cases h3 : ¬ (0 ≤ f ∧ f ≤ l ∧ l < (bk.all_sheets_map.length : Int))
        · rw [if_pos h3]
          exact Or.inr (by simp [isSentinelPair])
        · rw [if_neg h3]
          by_cases h4 : ¬ (0 ≤ bk.all_sheets_map.getD f.toNat 0
              ∧ bk.all_sheets_map.getD f.toNat 0 ≤ bk.all_sheets_map.getD l.toNat 0)
          · rw [if_pos h4]
            exact Or.inr (by simp [isSentinelPair])
          · rw [if_neg h4]
            push_neg at h4
            exact Or.inl ⟨h4.1, h4.2⟩

/-- A well-formed workbook for the C6 witness: a local entry, an add-in
entry with the 0xFFFE markers, and a two-sheet map. -/
def wfExternBook : Book :=
  { supbook_addins_inx := some 1
    supbook_locals_inx := some 0
    externsheet_info := [(0, 0, 1), (1, 0xFFFE, 0xFFFE)]
    all_sheets_map := [0, 1] }

/-- C6 witness: the amended theorem applied at a concrete workbook and
descriptor. -/
theorem externsheet_resolution_witness :
    (∃ p, get_externsheet_local_range wfExternBook 0 = .ok p
        ∧ ((0 ≤ p.1 ∧ p.1 ≤ p.2) ∨ isSentinelPair p))
    ∧ ((0 ≤ (get_externsheet_local_range_b57 wfExternBook 1 0 0).1
          ∧ (get_externsheet_local_range_b57 wfExternBook 1 0 0).1
            ≤ (get_externsheet_local_range_b57 wfExternBook 1 0 0).2)
        ∨ isSentinelPair (get_externsheet_local_range_b57 wfExternBook 1 0 0)) :=
  externsheet_resolution wfExternBook 0 1 0 0 (by decide)

/-! ## C9: memoization of name evaluation -/

/-- A cached result operand with a non-leaf rank and its own text, to
expose the rank/text reset of the copy. -/
def cachedOp : Operand :=
  { kind := oNUM, value := some (.num (Flt.ofInt 7)), rank := 30, text := "3+4" }

/-- An already-evaluated name holding `cachedOp`. -/
def cachedNameObj : NameObject :=
  { name := "FOO", evaluated := true, stack := [.op cachedOp] }

/-- A book where name 1 references the already-evaluated name 0 through
a `tName` token. -/
def memoBook : Book :=
  { name_obj_list := [cachedNameObj,
      { name := "BAR", raw_formula := [0x23, 1, 0, 0, 0], basic_formula_len := 5 }] }

/-- C9 counterexample: an evaluation request for an already-evaluated
NameObject does not return the identical cached Operand — the target is
left unchanged (no second mutation, no re-walk), but the operand pushed
for the referencing formula is a copy with `rank` reset to the leaf
rank and `text` reset to the name's display text, so it differs from
the cached operand. -/
theorem memoized_name_returns_reset_copy :
    (evaluate_name_formula 20 memoBook 1 false 0).map
      (fun b => (b.name_obj_list.getD 0 {}, (b.name_obj_list.getD 1 {}).result))
    = .ok (cachedNameObj,
        some (.op { kind := oNUM, value := some (.num (Flt.ofInt 7)),
                    rank := LEAF_RANK, text := "FOO" }))
    ∧ (some (StackElt.op { kind := oNUM, value := some (.num (Flt.ofInt 7)),
                           rank := LEAF_RANK, text := "FOO" })
        ≠ cachedNameObj.stack.head?) := by
  refine ⟨by decide, by decide⟩

/-- C9 (amended): once a target NameObject is marked `evaluated`, a
name-reference token performs no further token-stream walk and no
further mutation: for EVERY recursive-evaluation callback, the `tName`
handler returns the book unchanged and pushes an operand carrying the
cached operand's kind and value, with rank reset to the leaf rank and
text reset to the (global-scope) name's display text. -/
theorem memoized_name_no_rewalk (cb : EvalNameFn) (bk : Book) (data : List Nat)
    (pos : Nat) (blah : Bool) (level : Nat) (stk : List StackElt) (ar ae : Bool)
    (w : Nat) (tgtobj : NameObject) (c : Operand)
    (hw : readU16 data (pos + 1) = .ok w)
    (ht : pyIdx bk.name_obj_list ((w : Int) - 1) = .ok tgtobj)
    (he : tgtobj.evaluated = true)
    (hm : tgtobj.macroFlag = false) (hb : tgtobj.binary = false)
    (hae : tgtobj.any_err = false)
    (hs : tgtobj.stack = [.op c]) (hsc : tgtobj.scope = -1) :
    eval_tName cb bk data pos blah level stk ar ae
      = .ok (bk, stk ++ [.op { kind := c.kind, value := c.value,
                               rank := LEAF_RANK, text := tgtobj.name }], ar, ae) := by
  simp [eval_tName, hw, ht, he, hm, hb, hae, hs, hsc, bind, Except.bind,
    StackElt.getOp, pure, Except.pure]

/-- C9 witness: the amended theorem applied at the concrete memoized
book, with a callback that would fail if it were ever invoked. -/
theorem memoized_name_no_rewalk_witness :
    eval_tName (fun _ _ _ _ => .error .fuelExhausted) memoBook [0x23, 1, 0, 0, 0] 0
      false 0 [] false false
      = .ok (memoBook, [.op { kind := cachedOp.kind, value := cachedOp.value,
                              rank := LEAF_RANK, text := cachedNameObj.name }], false, false) :=
  memoized_name_no_rewalk (fun _ _ _ _ => .error .fuelExhausted) memoBook
    [0x23, 1, 0, 0, 0] 0 false 0 [] false false 1 cachedNameObj cachedOp
    (by decide) (by decide) (by decide) (by decide) (by decide) (by decide)
    (by decide) (by decide)

/-! ## C10: zero-length formulas -/

/-- C10: a formula whose declared token length is zero succeeds in both
entry points without raising: the decompiler returns the text `?` of
the single seeded Unknown operand, and the evaluator records a
one-element stack holding the Unknown-kind, value-free operand as the
name's result and marks the name evaluated (with clean summary
flags). -/
theorem empty_formula (bk : Book) (fmla : List Nat) (fmlatype : Nat)
    (browx bcolx : Option Int) (r1c1 : Bool) (fuel : Nat) (namex : Nat)
    (nobj : NameObject) (sztab : List Int)
    (hsz : szdict bk.biff_version = .ok sztab)
    (hn : bk.name_obj_list.get? namex = some nobj)
    (hlen : nobj.basic_formula_len = 0) :
    decompile_formula bk fmla 0 fmlatype browx bcolx false 0 r1c1 = .ok (some "?")
    ∧ ∃ bk2, evaluate_name_formula (fuel + 1) bk (namex : Int) false 0 = .ok bk2
        ∧ bk2.name_obj_list.get? namex = some { nobj with
            stack := [.op unk_opnd]
            result := some (.op unk_opnd)
            any_rel := false
            any_err := false
            any_external := false
            evaluated := true } := by
  have hlt : namex < bk.name_obj_list.length := by
    by_contra h
    push_neg at h
    rw [List.get?_eq_none.mpr h] at hn
    exact Option.noConfusion hn
  constructor
  · simp [decompile_formula, hsz, decompLoop, bind, Except.bind, pure, Except.pure,
      StackElt.getText, unk_opnd, STACK_PANIC_LEVEL]
  · have hj : ((namex : Int)).toNat = namex := rfl
    have hpy : pyIdx bk.name_obj_list (namex : Int) = .ok nobj := by
      have h0 : ¬ ((namex : Int) < 0) := by omega
      have hn2 : bk.name_obj_list[namex]? = some nobj := by
        rw [← List.get?_eq_getElem?]
        exact hn
      simp [pyIdx, h0, hn2]
    refine ⟨{ bk with name_obj_list := bk.name_obj_list.set namex { nobj with
        stack := [.op unk_opnd], result := some (.op unk_opnd), any_rel := false,
        any_err := false, any_external := false, evaluated := true } }, ?_, ?_⟩
    · simp only [evaluate_name_formula, hpy, bind, Except.bind]
      have h0 : ¬ ((namex : Int) < 0) := by omega
      simp [hlen, hsz, evalLoop, pySet, hlt, hpy, h0, hj, bind, Except.bind, pure,
        Except.pure, STACK_PANIC_LEVEL]
    · simp [List.get?_eq_getElem?, List.getElem?_set, hlt]

/-- C10 witness: both entry points at a concrete zero-length
formula. -/
theorem empty_formula_witness :
    decompile_formula (oneNameBook []) [] 0 FMLA_TYPE_NAME none none false 0 false
      = .ok (some "?")
    ∧ ∃ bk2, evaluate_name_formula 1 (oneNameBook []) 0 false 0 = .ok bk2
        ∧ bk2.name_obj_list.get? 0 = some
            { ({ name := "N", raw_formula := [], basic_formula_len := 0 } : NameObject) with
              stack := [.op unk_opnd]
              result := some (.op unk_opnd)
              any_rel := false
              any_err := false
              any_external := false
              evaluated := true } :=
  empty_formula (oneNameBook []) [] FMLA_TYPE_NAME none none false 0 0
    { name := "N", raw_formula := [], basic_formula_len := 0 } sztab4
    (by decide) (by decide) (by decide)

/-! ## C2: box combination by the range and intersection operators -/

/-- A single-box absolute reference operand with the given coordinates,
rank and text. -/
def refOpnd (l : List Int) (rk : Nat) (t : String) : Operand :=
  ⟨oREF, some (.refs [⟨l, [0, 0, 0, 0, 0, 0]⟩]), rk, t⟩

/-- A single-box relative reference operand with the given coordinates,
relocation flags, rank and text. -/
def relOpnd (l fl : List Int) (rk : Nat) (t : String) : Operand :=
  ⟨oREL, some (.refs [⟨l, fl⟩]), rk, t⟩

/-- C2: on any two single-box reference operands, the evaluator's range
(colon) operator produces per axis the `min` of the lower bounds and the
`max` of the upper bounds (bounding-box union), and the intersection
operator the reverse (`max` lower, `min` upper — the overlapping box),
with no validation of empty or negative-width result boxes.  Covered for
both flavours of single-box pair:

* two absolute (`oREF`) operands (clauses 1 and 2): the combined box is
  absolute (all-zero relflags);
* two relative (`oREL`) operands with arbitrary relflags (clauses 3 and
  4): the result operand is relative, and the handlers combine only
  under the relflags-equality gate — with matching flags the combined
  box is rebuilt from the same per-axis `min`/`max` coordinates with the
  shared relflags appended (`Ref3D(coords + relfa)`), while mismatched
  flags yield a relative operand with no combined box (`value` stays
  `None`).

Stated over a one-token run of the evaluator loop with the two operands
on the stack, for arbitrary box coordinates, relflags, ranks and
texts. -/
theorem box_combination (cb : EvalNameFn) (namex : Int) (blah : Bool) (level : Nat)
    (bk : Book) (ar ae ax : Bool)
    (a1 a2 a3 a4 a5 a6 b1 b2 b3 b4 b5 b6 : Int) (fa fb : List Int)
    (ra rb : Nat) (ta tb : String) :
    evalLoop cb namex blah level 80 sztab4 [0x11] 1 2 0
      [.op (refOpnd [a1, a2, a3, a4, a5, a6] ra ta),
       .op (refOpnd [b1, b2, b3, b4, b5, b6] rb tb)] ar ae ax bk
      = .ok (bk,
          [.op ⟨oREF,
            some (.refs [⟨[min a1 b1, max a2 b2, min a3 b3, max a4 b4, min a5 b5, max a6 b6],
                          [0, 0, 0, 0, 0, 0]⟩]),
            80,
            parenWrap (refOpnd [a1, a2, a3, a4, a5, a6] ra ta) 80 ++ ":"
              ++ parenWrap (refOpnd [b1, b2, b3, b4, b5, b6] rb tb) 80⟩],
          ar, ae, ax)
    ∧ evalLoop cb namex blah level 80 sztab4 [0x0F] 1 2 0
      [.op (refOpnd [a1, a2, a3, a4, a5, a6] ra ta),
       .op (refOpnd [b1, b2, b3, b4, b5, b6] rb tb)] ar ae ax bk
      = .ok (bk,
          [.op ⟨oREF,
            some (.refs [⟨[max a1 b1, min a2 b2, max a3 b3, min a4 b4, max a5 b5, min a6 b6],
                          [0, 0, 0, 0, 0, 0]⟩]),
            0,
            parenWrap (refOpnd [a1, a2, a3, a4, a5, a6] ra ta) 80 ++ " "
              ++ parenWrap (refOpnd [b1, b2, b3, b4, b5, b6] rb tb) 80⟩],
          ar, ae, ax)
    ∧ evalLoop cb namex blah level 80 sztab4 [0x11] 1 2 0
      [.op (relOpnd [a1, a2, a3, a4, a5, a6] fa ra ta),
       .op (relOpnd [b1, b2, b3, b4, b5, b6] fb rb tb)] ar ae ax bk
      = .ok (bk,
          [.op ⟨oREL,
            if fa = fb then
              some (.refs [Ref3D.ofTuple
                ([min a1 b1, max a2 b2, min a3 b3, max a4 b4, min a5 b5, max a6 b6] ++ fa)])
            else none,
            80,
            parenWrap (relOpnd [a1, a2, a3, a4, a5, a6] fa ra ta) 80 ++ ":"
              ++ parenWrap (relOpnd [b1, b2, b3, b4, b5, b6] fb rb tb) 80⟩],
          ar, ae, ax)
    ∧ evalLoop cb namex blah level 80 sztab4 [0x0F] 1 2 0
      [.op (relOpnd [a1, a2, a3, a4, a5, a6] fa ra ta),
       .op (relOpnd [b1, b2, b3, b4, b5, b6] fb rb tb)] ar ae ax bk
      = .ok (bk,
          [.op ⟨oREL,
            if fa = fb then
              some (.refs [Ref3D.ofTuple
                ([max a1 b1, min a2 b2, max a3 b3, min a4 b4, max a5 b5, min a6 b6] ++ fa)])
            else none,
            0,
            parenWrap (relOpnd [a1, a2, a3, a4, a5, a6] fa ra ta) 80 ++ " "
              ++ parenWrap (relOpnd [b1, b2, b3, b4, b5, b6] fb rb tb) 80⟩],
          ar, ae, ax) := by
  refine ⟨?_, ?_, ?_, ?_⟩
  · simp [evalLoop, eval_tRange, refOpnd, pyReadByte, pyPop, StackElt.getOp, parenWrap,
      do_box_funcs, tRangeFuncs, Ref3D.ofTuple, szAt, sztab4, onames, oREF, oERR, oUNK,
      oREL, bind, Except.bind, pure, Except.pure]
  · simp [evalLoop, eval_tIsect, refOpnd, pyReadByte, pyPop, StackElt.getOp, parenWrap,
      do_box_funcs, tIsectFuncs, Ref3D.ofTuple, szAt, sztab4, onames, oREF, oERR, oUNK,
      oREL, bind, Except.bind, pure, Except.pure]
  · by_cases hf : fa = fb
    · simp [evalLoop, eval_tRange, relOpnd, pyReadByte, pyPop, StackElt.getOp, parenWrap,
        do_box_funcs, tRangeFuncs, Ref3D.ofTuple, szAt, sztab4, onames, oREF, oERR, oUNK,
        oREL, bind, Except.bind, pure, Except.pure, hf]
    · simp [evalLoop, eval_tRange, relOpnd, pyReadByte, pyPop, StackElt.getOp, parenWrap,
        do_box_funcs, tRangeFuncs, Ref3D.ofTuple, szAt, sztab4, onames, oREF, oERR, oUNK,
        oREL, bind, Except.bind, pure, Except.pure, hf]
  · by_cases hf : fa = fb
    · simp [evalLoop, eval_tIsect, relOpnd, pyReadByte, pyPop, StackElt.getOp, parenWrap,
        do_box_funcs, tIsectFuncs, Ref3D.ofTuple, szAt, sztab4, onames, oREF, oERR, oUNK,
        oREL, bind, Except.bind, pure, Except.pure, hf]
    · simp [evalLoop, eval_tIsect, relOpnd, pyReadByte, pyPop, StackElt.getOp, parenWrap,
        do_box_funcs, tIsectFuncs, Ref3D.ofTuple, szAt, sztab4, onames, oREF, oERR, oUNK,
        oREL, bind, Except.bind, pure, Except.pure, hf]

/-! ## C5: IF constant folding -/

/-- Project an evaluator-loop run to the `(kind, value)` pairs of its
final stack. -/
def loopKV (r : Except PyErr (Book × List StackElt × Bool × Bool × Bool)) :
    Except PyErr (List (Int × Option XLValue)) :=
  r.map fun x => x.2.1.map fun e =>
    match e with
    | .op o => (o.kind, o.value)
    | .intObj n => (n, none)

theorem func_defs_IF : func_defs.lookup 1 = some ("IF", 1, 3) := by decide

/-- C5: for a three-argument IF token seen by the evaluator: a
condition of Number or Boolean kind with value 1 (resp. 0) folds the
result to the kind and value of the matching branch on the stack, a
Missing-kind chosen branch folding to Number 0; a condition of Unknown
kind leaves an Unknown-kind operand with no value, and evaluation
completes without error in every case. -/
theorem if_constant_folding (cb : EvalNameFn) (namex : Int) (blah : Bool) (level : Nat)
    (bk : Book) (ar ae ax : Bool) (cond tv fv : Operand) :
    ((cond.kind = oNUM ∨ cond.kind = oBOOL) → cond.value = some (.num (Flt.ofInt 1)) →
      loopKV (evalLoop cb namex blah level 80 sztab4 [0x22, 3, 1, 0] 4 2 0
          [.op cond, .op tv, .op fv] ar ae ax bk)
        = .ok [(if tv.kind = oMSNG then oNUM else tv.kind,
                if tv.kind = oMSNG then some (.num (Flt.ofInt 0)) else tv.value)])
    ∧ ((cond.kind = oNUM ∨ cond.kind = oBOOL) → cond.value = some (.num (Flt.ofInt 0)) →
      loopKV (evalLoop cb namex blah level 80 sztab4 [0x22, 3, 1, 0] 4 2 0
          [.op cond, .op tv, .op fv] ar ae ax bk)
        = .ok [(if fv.kind = oMSNG then oNUM else fv.kind,
                if fv.kind = oMSNG then some (.num (Flt.ofInt 0)) else fv.value)])
    ∧ (cond.kind = oUNK →
      loopKV (evalLoop cb namex blah level 80 sztab4 [0x22, 3, 1, 0] 4 2 0
          [.op cond, .op tv, .op fv] ar ae ax bk)
        = .ok [(oUNK, none)]) := by
  refine ⟨?_, ?_, ?_⟩
  · intro hk hv
    by_cases hm : tv.kind = 5 <;> rcases hk with hk | hk <;>
      simp [loopKV, evalLoop, eval_tFuncVar, func_defs_IF, hk, hv, hm, valueIn01, optTruthy,
        truncOpt, Flt.trunc, Flt.ofInt, xlTruthy, joinTexts, List.mapM, List.mapM.loop,
        pyTailSlice, pyDelTail,
        pyIdx, pyReadByte, readU16, readU8, StackElt.getOp, StackElt.getText, szAt,
        sztab4, onames, oNUM, oBOOL, oUNK, oMSNG, FUNC_RANK, bind, Except.bind, pure,
        Except.pure, Except.map]
  · intro hk hv
    by_cases hm : fv.kind = 5 <;> rcases hk with hk | hk <;>
      simp [loopKV, evalLoop, eval_tFuncVar, func_defs_IF, hk, hv, hm, valueIn01, optTruthy,
        truncOpt, Flt.trunc, Flt.ofInt, xlTruthy, joinTexts, List.mapM, List.mapM.loop,
        pyTailSlice, pyDelTail,
        pyIdx, pyReadByte, readU16, readU8, StackElt.getOp, StackElt.getText, szAt,
        sztab4, onames, oNUM, oBOOL, oUNK, oMSNG, FUNC_RANK, bind, Except.bind, pure,
        Except.pure, Except.map]
  · intro hk
    simp [loopKV, evalLoop, eval_tFuncVar, func_defs_IF, hk, valueIn01, optTruthy,
      truncOpt, Flt.trunc, Flt.ofInt, xlTruthy, joinTexts, List.mapM, List.mapM.loop,
        pyTailSlice, pyDelTail,
      pyIdx, pyReadByte, readU16, readU8, StackElt.getOp, StackElt.getText, szAt,
      sztab4, onames, oNUM, oBOOL, oUNK, oMSNG, FUNC_RANK, bind, Except.bind, pure,
      Except.pure, Except.map]

/-- C5 witness: the folding clauses at concrete operands —
`IF(1,10,20)` folds to Number 10, `IF(0,10,20)` to Number 20, a Missing
true branch folds to Number 0, and an Unknown condition stays Unknown
with no value. -/
theorem if_constant_folding_witness :
    (loopKV (evalLoop (fun _ _ _ _ => .error .fuelExhausted) 0 false 0 80 sztab4
        [0x22, 3, 1, 0] 4 2 0
        [.op ⟨oNUM, some (.num (Flt.ofInt 1)), LEAF_RANK, "1.0"⟩,
         .op ⟨oNUM, some (.num (Flt.ofInt 10)), LEAF_RANK, "10.0"⟩,
         .op ⟨oNUM, some (.num (Flt.ofInt 20)), LEAF_RANK, "20.0"⟩] false false false {})
      = .ok [(oNUM, some (.num (Flt.ofInt 10)))])
    ∧ (loopKV (evalLoop (fun _ _ _ _ => .error .fuelExhausted) 0 false 0 80 sztab4
        [0x22, 3, 1, 0] 4 2 0
        [.op ⟨oNUM, some (.num (Flt.ofInt 0)), LEAF_RANK, "0.0"⟩,
         .op ⟨oNUM, some (.num (Flt.ofInt 10)), LEAF_RANK, "10.0"⟩,
         .op ⟨oNUM, some (.num (Flt.ofInt 20)), LEAF_RANK, "20.0"⟩] false false false {})
      = .ok [(oNUM, some (.num (Flt.ofInt 20)))])
    ∧ (loopKV (evalLoop (fun _ _ _ _ => .error .fuelExhausted) 0 false 0 80 sztab4
        [0x22, 3, 1, 0] 4 2 0
        [.op ⟨oNUM, some (.num (Flt.ofInt 1)), LEAF_RANK, "1.0"⟩,
         .op ⟨oMSNG, none, LEAF_RANK, ""⟩,
         .op ⟨oNUM, some (.num (Flt.ofInt 20)), LEAF_RANK, "20.0"⟩] false false false {})
      = .ok [(oNUM, some (.num (Flt.ofInt 0)))])
    ∧ (loopKV (evalLoop (fun _ _ _ _ => .error .fuelExhausted) 0 false 0 80 sztab4
        [0x22, 3, 1, 0] 4 2 0
        [.op ⟨oUNK, none, LEAF_RANK, "NA()"⟩,
         .op ⟨oNUM, some (.num (Flt.ofInt 10)), LEAF_RANK, "10.0"⟩,
         .op ⟨oNUM, some (.num (Flt.ofInt 20)), LEAF_RANK, "20.0"⟩] false false false {})
      = .ok [(oUNK, none)]) := by
  refine ⟨?_, ?_, ?_, ?_⟩
  · have h := (if_constant_folding (fun _ _ _ _ => .error .fuelExhausted) 0 false 0 {}
      false false false ⟨oNUM, some (.num (Flt.ofInt 1)), LEAF_RANK, "1.0"⟩
      ⟨oNUM, some (.num (Flt.ofInt 10)), LEAF_RANK, "10.0"⟩
      ⟨oNUM, some (.num (Flt.ofInt 20)), LEAF_RANK, "20.0"⟩).1 (Or.inl rfl) rfl
    simpa using h
  · have h := (if_constant_folding (fun _ _ _ _ => .error .fuelExhausted) 0 false 0 {}
      false false false ⟨oNUM, some (.num (Flt.ofInt 0)), LEAF_RANK, "0.0"⟩
      ⟨oNUM, some (.num (Flt.ofInt 10)), LEAF_RANK, "10.0"⟩
      ⟨oNUM, some (.num (Flt.ofInt 20)), LEAF_RANK, "20.0"⟩).2.1 (Or.inl rfl) rfl
    simpa using h
  · have h := (if_constant_folding (fun _ _ _ _ => .error .fuelExhausted) 0 false 0 {}
      false false false ⟨oNUM, some (.num (Flt.ofInt 1)), LEAF_RANK, "1.0"⟩
      ⟨oMSNG, none, LEAF_RANK, ""⟩
      ⟨oNUM, some (.num (Flt.ofInt 20)), LEAF_RANK, "20.0"⟩).1 (Or.inl rfl) rfl
    simpa using h
  · have h := (if_constant_folding (fun _ _ _ _ => .error .fuelExhausted) 0 false 0 {}
      false false false ⟨oUNK, none, LEAF_RANK, "NA()"⟩
      ⟨oNUM, some (.num (Flt.ofInt 10)), LEAF_RANK, "10.0"⟩
      ⟨oNUM, some (.num (Flt.ofInt 20)), LEAF_RANK, "20.0"⟩).2.2 rfl
    simpa using h

/-! ## C1: decompiler termination contract -/

/-- C1: whenever the decompiler's token walk runs to stream exhaustion
(the loop returns a final stack), the returned result is exactly: the
single remaining Operand's `text` when the stack depth is one, and no
result (Python `None`) for every other depth — never a best-effort
text. -/
theorem decompile_termination (bk : Book) (fmla : List Nat) (fmlalen fmlatype : Nat)
    (browx bcolx : Option Int) (blah : Bool) (level : Nat) (r1c1 : Bool)
    (sztab : List Int) (stk : List StackElt) (ar ae : Bool)
    (hlev : level ≤ STACK_PANIC_LEVEL)
    (hsz : szdict bk.biff_version = .ok sztab)
    (hloop : decompLoop bk fmlatype
        (decide (fmlatype = FMLA_TYPE_SHARED ∨ fmlatype = FMLA_TYPE_NAME
          ∨ fmlatype = FMLA_TYPE_COND_FMT ∨ fmlatype = FMLA_TYPE_DATA_VAL))
        browx bcolx r1c1 bk.biff_version sztab fmla fmlalen (fmlalen + 1) 0
        (if fmlalen = 0 then [StackElt.op unk_opnd] else []) false false
        = .ok (stk, ar, ae)) :
    (∀ o : Operand, stk = [.op o] →
      decompile_formula bk fmla fmlalen fmlatype browx bcolx blah level r1c1
        = .ok (some o.text))
    ∧ (stk.length ≠ 1 →
      decompile_formula bk fmla fmlalen fmlatype browx bcolx blah level r1c1
        = .ok none) := by
  have hpanic : ¬ (level > STACK_PANIC_LEVEL) := by omega
  constructor
  · intro o ho
    subst ho
    simp only [decompile_formula, bind, Except.bind, if_neg hpanic, hsz, hloop,
      StackElt.getText, pure, Except.pure]
    simp
  · intro hne
    simp only [decompile_formula, bind, Except.bind, if_neg hpanic, hsz, hloop,
      StackElt.getText, pure, Except.pure]
    simp [hne]

/-- C1 witness: the contract applied to two concrete runs — a single
integer literal (depth one, text returned) and two stranded literals
(depth two, no result). -/
theorem decompile_termination_witness :
    decompile_formula {} [0x1E, 7, 0] 3 FMLA_TYPE_NAME none none false 0 false
      = .ok (some "7.0")
    ∧ decompile_formula {} [0x1E, 1, 0, 0x1E, 2, 0] 6 FMLA_TYPE_NAME none none false 0 false
      = .ok none := by
  constructor
  · exact (decompile_termination {} [0x1E, 7, 0] 3 FMLA_TYPE_NAME none none false 0 false
      sztab4 [.op ⟨oNUM, none, LEAF_RANK, "7.0"⟩] false false (by decide) (by decide)
      (by decide)).1 ⟨oNUM, none, LEAF_RANK, "7.0"⟩ rfl
  · exact (decompile_termination {} [0x1E, 1, 0, 0x1E, 2, 0] 6 FMLA_TYPE_NAME none none
      false 0 false sztab4
      [.op ⟨oNUM, none, LEAF_RANK, "1.0"⟩, .op ⟨oNUM, none, LEAF_RANK, "2.0"⟩] false false
      (by decide) (by decide) (by decide)).2 (by decide)

end Xlrd2
